import Mathlib

/-!
Verification of the geometry normalization and spatial-query pipeline of the
peit_map_creator repository.

The Python sources are shallowly embedded as executable Lean definitions:

* Numeric code (`calculate_bbox_fill_ratio`, `calculate_dynamic_bbox_threshold`,
  the strategy decision in `process_all_layers`) is embedded over `ℚ`.
  Shapely's float attribute reads (`geom.bounds`, `geom.area`) and the
  cosine-based `calculate_area_sq_miles` are abstracted into fields of a
  numeric geometry view `QGeom`; the `try/except` guards of the Python code
  are modelled by an `opsFail` flag.

* Geometries handled by the clipping / normalization pipeline are modelled as
  finite sample-point sets (`Geom.pts`, point-set semantics: shapely
  `intersection` filters the point set, `make_valid` / `buffer(0)` repair the
  validity flag without moving points).  Shapely exceptions raised by
  degenerate geometries are modelled by a `hardness` level: `intersection`
  succeeds at hardness 0, `buffer(0)` repairs hardness ≤ 1, `make_valid`
  repairs hardness ≤ 2, and everything fails at hardness ≥ 3, which realizes
  every repair-fallback path of `clipping.py`.

* Network traffic of `arcgis_query.py` is modelled by an environment record
  `Env` giving the outcome (success / timeout / request error) of each HTTP
  request the code can issue, and wall-clock readings for the pagination
  time-budget check.

* External reprojection and buffering (pyproj / shapely `buffer`) in
  `pipeline.py` are modelled by oracle functions collected in `GeoEnv`.
-/

/-! ### Numeric view of a shapely geometry (for `geometry_converters.py`) -/

/-- Numeric view of a shapely polygon as read by the query-strategy planner:
its emptiness, its float bounding box, its `.area`, and the value the
latitude-scaled cosine approximation of `calculate_area_sq_miles` would
return.  `opsFail` models the `except Exception` branches (a shapely
attribute access raising). -/
structure QGeom where
  isEmpty : Bool
  minx : ℚ
  miny : ℚ
  maxx : ℚ
  maxy : ℚ
  area : ℚ
  areaSqMilesVal : ℚ
  opsFail : Bool
deriving Repr, DecidableEq

/-- `calculate_bbox_fill_ratio` from src/utils/geometry_converters.py:
polygon area divided by bounding-box area, capped at 1.0; returns 1.0 for
`None`/empty geometry, a non-positive bounding-box area, or any exception. -/
def calculate_bbox_fill_ratio (g : QGeom) : ℚ :=
  if g.isEmpty then 1
  else if g.opsFail then 1
  else if (g.maxx - g.minx) * (g.maxy - g.miny) ≤ 0 then 1
  else min (g.area / ((g.maxx - g.minx) * (g.maxy - g.miny))) 1

/-- `calculate_area_sq_miles` from src/utils/geometry_converters.py.  The
latitude-scaled degree-to-mile conversion (69 · 69·cos lat) is abstracted
into the field `areaSqMilesVal`; empty geometry and computation failure
yield 0.0 as in the source. -/
def calculate_area_sq_miles (g : QGeom) : ℚ :=
  if g.isEmpty then 0
  else if g.opsFail then 0
  else g.areaSqMilesVal

/-- `calculate_dynamic_bbox_threshold` from src/utils/geometry_converters.py:
piecewise-linear fill-ratio threshold as a function of area in square miles. -/
def calculate_dynamic_bbox_threshold (area_sq_miles : ℚ) : ℚ :=
  if area_sq_miles < 100 then 0.05
  else if area_sq_miles < 500 then 0.05 + (area_sq_miles - 100) / 400 * 0.45
  else if area_sq_miles < 1500 then 0.50 + (area_sq_miles - 500) / 1000 * 0.20
  else if area_sq_miles < 3000 then 0.70 + (area_sq_miles - 1500) / 1500 * 0.10
  else if area_sq_miles < 4000 then 0.80 + (area_sq_miles - 3000) / 1000 * 0.15
  else 0.95

/-- The two query strategies of the planner. -/
inductive QueryStrategy
  | envelope
  | polygon
deriving Repr, DecidableEq

/-- The per-run strategy decision of `process_all_layers`
(src/core/layer_processor.py lines 130-188): with polygon queries enabled in
the configuration, compare the bounding-box fill ratio against the dynamic
area-derived threshold; `esriConvertsOk` records whether
`shapely_to_esri_polygon` produced a payload (it fails only for empty or
non-polygonal geometry, in which case the code falls back to envelope). -/
def select_query_strategy (polygon_query_config : Bool) (g : QGeom)
    (esriConvertsOk : Bool) : QueryStrategy :=
  if !polygon_query_config then .envelope
  else
    let area_sq_miles := calculate_area_sq_miles g
    let bbox_fill_ratio := calculate_bbox_fill_ratio g
    let bbox_fill_threshold := calculate_dynamic_bbox_threshold area_sq_miles
    if bbox_fill_threshold ≤ bbox_fill_ratio then .envelope
    else if esriConvertsOk then .polygon
    else .envelope

/-- The dynamic threshold never exceeds 0.95, on any area. -/
lemma dynamic_bbox_threshold_le (a : ℚ) :
    calculate_dynamic_bbox_threshold a ≤ 0.95 := by
  unfold calculate_dynamic_bbox_threshold
  split
  · norm_num
  · split
    · next h1 h2 => nlinarith
    · split
      · next h1 h2 h3 => nlinarith
      · split
        · next h1 h2 h3 h4 => nlinarith
        · split
          · next h1 h2 h3 h4 h5 => nlinarith
          · norm_num

/-- The fill ratio is always at most 1. -/
lemma bbox_fill_ratio_le_one (g : QGeom) : calculate_bbox_fill_ratio g ≤ 1 := by
  unfold calculate_bbox_fill_ratio
  split
  · norm_num
  · split
    · norm_num
    · split
      · norm_num
      · exact min_le_right _ _

/-- Claim C1: with polygon queries enabled and the ESRI serialization
succeeding (true for every normalized, non-empty project polygon), the
planner selects the envelope strategy exactly when the bounding-box fill
ratio is at least the dynamic area-derived threshold and the polygon
strategy otherwise; the fill ratio is capped at 1.0 and defaults to 1.0 for
empty geometry, a non-positive bounding-box area, or any computation
failure; and a fill ratio of 1.0 selects envelope for every area because no
threshold exceeds 0.95. -/
theorem C1_query_strategy_decision (g : QGeom) :
    (select_query_strategy true g true = .envelope ↔
      calculate_dynamic_bbox_threshold (calculate_area_sq_miles g) ≤
        calculate_bbox_fill_ratio g) ∧
    calculate_bbox_fill_ratio g ≤ 1 ∧
    (g.isEmpty = true → calculate_bbox_fill_ratio g = 1) ∧
    (g.opsFail = true → calculate_bbox_fill_ratio g = 1) ∧
    (g.isEmpty = false → g.opsFail = false →
      (g.maxx - g.minx) * (g.maxy - g.miny) ≤ 0 →
      calculate_bbox_fill_ratio g = 1) ∧
    (calculate_bbox_fill_ratio g = 1 →
      select_query_strategy true g true = .envelope) := by
  have hle := dynamic_bbox_threshold_le (calculate_area_sq_miles g)
  refine ⟨?_, bbox_fill_ratio_le_one g, ?_, ?_, ?_, ?_⟩
  · unfold select_query_strategy
    simp only [Bool.not_true]
    constructor
    · intro h
      by_contra hc
      push_neg at hc
      rw [if_neg (by simp), if_neg (not_le.mpr hc)] at h
      simp at h
    · intro h
      rw [if_neg (by simp), if_pos h]
  · intro h; unfold calculate_bbox_fill_ratio; rw [h]; simp
  · intro h; unfold calculate_bbox_fill_ratio
    rcases hE : g.isEmpty with _ | _ <;> simp [hE, h]
  · intro h1 h2 h3; unfold calculate_bbox_fill_ratio
    simp [h1, h2, h3]
  · intro h
    unfold select_query_strategy
    rw [h]
    have : calculate_dynamic_bbox_threshold (calculate_area_sq_miles g) ≤ 1 := by
      calc calculate_dynamic_bbox_threshold (calculate_area_sq_miles g) ≤ 0.95 := hle
        _ ≤ 1 := by norm_num
    simp only [Bool.not_true]
    rw [if_neg (by simp), if_pos this]

/-! ### Point-set geometry model (shared by clipping.py, pipeline.py, arcgis_query.py)

A geometry is a finite set of sample points together with its shapely type
tag, its validity flag, and a `hardness` level describing how degenerate it
is: shapely `intersection` raises unless hardness is 0, `buffer(0)` repairs
hardness ≤ 1, `make_valid` repairs hardness ≤ 2, and nothing repairs
hardness ≥ 3.  Repairs never move sample points (set semantics of
`make_valid` / zero-width buffer); `intersection` keeps exactly the points
lying in both operands.  Geometry collections carry no member list in this
model (they are rejected upstream by input validation and never produced by
the ESRI conversion), so extracting members from one finds nothing. -/

inductive ShType
  | point
  | multipoint
  | linestring
  | multilinestring
  | polygon
  | multipolygon
  | geometrycollection
deriving Repr, DecidableEq

structure Geom where
  shType : ShType
  pts : List (ℤ × ℤ)
  valid : Bool
  hardness : ℕ
deriving Repr, DecidableEq

/-- shapely `a.intersection(b)` on success: the points of `a` lying in `b`. -/
def interG (a b : Geom) : Geom :=
  { shType := a.shType
    pts := a.pts.filter (fun p => decide (p ∈ b.pts))
    valid := true
    hardness := 0 }

/-- shapely `a.intersects(b)`: some sample point is shared. -/
def intersectsB (a b : Geom) : Bool :=
  a.pts.any (fun p => decide (p ∈ b.pts))

/-- shapely `.is_empty` (also covers a `None` geometry slot). -/
def geomIsEmpty (g : Geom) : Bool :=
  g.pts.isEmpty

/-- shapely `make_valid(g)`: succeeds below hardness 3, making the geometry
valid and one level less degenerate, without moving points. -/
def makeValidE (g : Geom) : Except Unit Geom :=
  if g.hardness ≤ 2 then .ok { g with valid := true, hardness := g.hardness - 1 }
  else .error ()

/-- shapely `g.buffer(0)`: succeeds below hardness 2, yielding a valid
geometry that intersection accepts. -/
def buffer0E (g : Geom) : Except Unit Geom :=
  if g.hardness ≤ 1 then .ok { g with valid := true, hardness := 0 }
  else .error ()

/-- shapely `a.intersection(b)` as a fallible call: raises unless `a` has
hardness 0. -/
def intersectionE (a b : Geom) : Except Unit Geom :=
  if a.hardness = 0 then .ok (interG a b) else .error ()

/-- `count_vertices` from src/geometry_input/clipping.py (and
`count_geometry_vertices` from src/utils/geometry_converters.py): total
coordinate count, which in the sample-point model is the point count. -/
def count_vertices (g : Geom) : ℕ :=
  g.pts.length

/-- A GeoDataFrame row: a feature id (standing for the attribute row) and a
geometry. -/
structure Feature where
  fid : ℕ
  geom : Geom
deriving Repr, DecidableEq

/-! ### src/geometry_input/clipping.py -/

/-- The per-layer clipping statistics dictionary built by
`clip_geodataframe` / `_clip_per_feature`. -/
structure ClipMeta where
  features_clipped : ℕ
  lines_clipped : ℕ
  polygons_clipped : ℕ
  original_vertex_count : ℕ
  clipped_vertex_count : ℕ
  vertex_reduction_percent : ℚ
  empty_geometries_removed : ℕ
  clip_failures : ℕ
deriving Repr, DecidableEq

def emptyClipMeta : ClipMeta :=
  { features_clipped := 0, lines_clipped := 0, polygons_clipped := 0
    original_vertex_count := 0, clipped_vertex_count := 0
    vertex_reduction_percent := 0, empty_geometries_removed := 0
    clip_failures := 0 }

/-- Model of Python `round(x, 1)` (one decimal place, half rounded up; the
float banker-rounding corner cases are not modelled, no claim depends on
them). -/
def round1 (q : ℚ) : ℚ :=
  ((⌊q * 10 + 1/2⌋ : ℤ) : ℚ) / 10

/-- `extract_geometry_type` from src/geometry_input/clipping.py: pass a
direct type match through, find nothing inside a collection (collections
carry no members in this model), reject everything else. -/
def extract_geometry_type (g : Geom) (target_type : String) : Option Geom :=
  if geomIsEmpty g then none
  else if target_type = "line" ∧
      (g.shType = ShType.linestring ∨ g.shType = ShType.multilinestring) then some g
  else if target_type = "polygon" ∧
      (g.shType = ShType.polygon ∨ g.shType = ShType.multipolygon) then some g
  else none

/-- `safe_repair` from `clip_geodataframe` step 1: `make_valid` with
geometry-collection extraction, falling back to the original geometry when
the repair raises or returns nothing. -/
def safe_repair (geometry_type : String) (g : Geom) : Geom :=
  match makeValidE g with
  | .error _ => g
  | .ok r0 =>
    match (if r0.shType = ShType.geometrycollection then
             extract_geometry_type r0 geometry_type
           else some r0) with
    | none => g
    | some r => if geomIsEmpty r then g else r

/-- Step 1 of `clip_geodataframe` applied to one row: rows under the
invalid mask are repaired with `safe_repair`, valid rows pass through. -/
def repairRow (geometry_type : String) (f : Feature) : Feature :=
  if f.geom.valid then f else { f with geom := safe_repair geometry_type f.geom }

/-- Model of `gpd.clip(gdf, boundary)`: every row's geometry is intersected
with the boundary and rows with an empty intersection are dropped; the
vectorized call raises when any row's geometry is degenerate (hardness over
0). -/
def gpdClipE (rows : List Feature) (b : Geom) : Except Unit (List Feature) :=
  if rows.all (fun f => f.geom.hardness = 0) then
    .ok (rows.filterMap (fun f =>
      let c := interG f.geom b
      if geomIsEmpty c then none else some { f with geom := c }))
  else .error ()

/-- What happened to one row in the per-feature fallback loop. -/
inductive ClipOutcome
  | passthrough
  | clippedOk
  | droppedEmpty
  | failedCounted
  | failedUncounted
deriving Repr, DecidableEq

/-- Attempt 3 of `_clip_per_feature` (make_valid, collection extraction,
buffer(0), then intersection): `(some c, false)` on success, `(none, true)`
when a call raised (`clip_failures` is incremented), `(none, false)` when
the repaired geometry vanished without an exception (the original is kept
silently). -/
def clipAttemptThree (clip_boundary : Geom) (geometry_type : String) (g : Geom) :
    Option Geom × Bool :=
  match makeValidE g with
  | .error _ => (none, true)
  | .ok d0 =>
    match (if d0.shType = ShType.geometrycollection then
             extract_geometry_type d0 geometry_type
           else some d0) with
    | none => (none, false)
    | some d1 =>
      if geomIsEmpty d1 then (none, false)
      else
        match buffer0E d1 with
        | .error _ => (none, true)
        | .ok d2 =>
          match intersectionE d2 clip_boundary with
          | .error _ => (none, true)
          | .ok c => (some c, false)

/-- The escalating attempt cascade of `_clip_per_feature`: direct
intersection, buffer(0) repair and retry, then the double-repair attempt. -/
def clipAttempt (clip_boundary : Geom) (geometry_type : String) (g : Geom) :
    Option Geom × Bool :=
  match intersectionE g clip_boundary with
  | .ok c => (some c, false)
  | .error _ =>
    match buffer0E g with
    | .error _ => clipAttemptThree clip_boundary geometry_type g
    | .ok r =>
      if geomIsEmpty r then (none, false)
      else
        match intersectionE r clip_boundary with
        | .ok c => (some c, false)
        | .error _ => clipAttemptThree clip_boundary geometry_type g

/-- One iteration of the row loop of `_clip_per_feature`
(src/geometry_input/clipping.py lines 334-411): empty originals pass
through unchanged, a failed cascade keeps the original, a successful clip
goes through collection extraction, the empty check, and the final
validity repair before being stored. -/
def clipFeatureStep (clip_boundary : Geom) (geometry_type : String) (f : Feature) :
    Option Feature × ClipOutcome :=
  if geomIsEmpty f.geom then (some f, .passthrough)
  else
    match clipAttempt clip_boundary geometry_type f.geom with
    | (none, counted) =>
      (some f, if counted then .failedCounted else .failedUncounted)
    | (some c0, _) =>
      match (if c0.shType = ShType.geometrycollection then
               extract_geometry_type c0 geometry_type
             else some c0) with
      | none => (none, .droppedEmpty)
      | some c2 =>
        if geomIsEmpty c2 then (none, .droppedEmpty)
        else
          match (if !c2.valid then
                   match makeValidE c2 with
                   | .ok r =>
                     if r.shType = ShType.geometrycollection then
                       extract_geometry_type r geometry_type
                     else some r
                   | .error _ => some c2
                 else some c2) with
          | none => (none, .droppedEmpty)
          | some c4 =>
            if geomIsEmpty c4 then (none, .droppedEmpty)
            else (some { fid := f.fid, geom := c4 }, .clippedOk)

/-- `_clip_per_feature` from src/geometry_input/clipping.py: the slow path
used when `gpd.clip` raises.  The layer name parameter (logging only) is
dropped. -/
def clip_per_feature (rows : List Feature) (clip_boundary : Geom)
    (geometry_type : String) (original_vertex_count : ℕ) :
    List Feature × ClipMeta :=
  let step := rows.map (clipFeatureStep clip_boundary geometry_type)
  let out := step.filterMap Prod.fst
  let clip_failures := (step.filter (fun s => s.2 = ClipOutcome.failedCounted)).length
  let empty_removed := (step.filter (fun s => s.2 = ClipOutcome.droppedEmpty)).length
  let fc_counter := (step.filter (fun s => s.2 = ClipOutcome.clippedOk)).length
  let clipped_vertex_count := (out.map (fun f => count_vertices f.geom)).sum
  let reduced := 0 < original_vertex_count ∧ clipped_vertex_count < original_vertex_count
  (out,
   { features_clipped := if reduced then fc_counter else 0
     lines_clipped := if reduced ∧ geometry_type = "line" then fc_counter else 0
     polygons_clipped := if reduced ∧ geometry_type = "polygon" then fc_counter else 0
     original_vertex_count := original_vertex_count
     clipped_vertex_count := clipped_vertex_count
     vertex_reduction_percent :=
       if 0 < original_vertex_count then
         round1 (((original_vertex_count : ℚ) - (clipped_vertex_count : ℚ)) /
           (original_vertex_count : ℚ) * 100)
       else 0
     empty_geometries_removed := empty_removed
     clip_failures := clip_failures })

/-- Steps 3-5 of `clip_geodataframe` after a successful vectorized clip:
geometry-collection extraction, removal of empty geometries, and the
statistics block. -/
def vectorizedResult (geometry_type : String) (original_vertex_count : ℕ)
    (clipped0 : List Feature) : List Feature × ClipMeta :=
  let withGC := clipped0.map (fun f =>
    (f.fid,
     if f.geom.shType = ShType.geometrycollection then
       extract_geometry_type f.geom geometry_type
     else some f.geom))
  let empty_removed := (withGC.filter (fun p =>
    match p.2 with
    | none => true
    | some g => geomIsEmpty g)).length
  let kept := withGC.filterMap (fun p =>
    match p.2 with
    | none => none
    | some g => if geomIsEmpty g then none else some (⟨p.1, g⟩ : Feature))
  let clipped_vertex_count := (kept.map (fun f => count_vertices f.geom)).sum
  let reduced := 0 < original_vertex_count ∧ clipped_vertex_count < original_vertex_count
  (kept,
   { features_clipped := if reduced then kept.length else 0
     lines_clipped := if reduced ∧ geometry_type = "line" then kept.length else 0
     polygons_clipped := if reduced ∧ geometry_type = "polygon" then kept.length else 0
     original_vertex_count := original_vertex_count
     clipped_vertex_count := clipped_vertex_count
     vertex_reduction_percent :=
       if 0 < original_vertex_count then
         round1 (((original_vertex_count : ℚ) - (clipped_vertex_count : ℚ)) /
           (original_vertex_count : ℚ) * 100)
       else 0
     empty_geometries_removed := empty_removed
     clip_failures := 0 })

/-- `clip_geodataframe` from src/geometry_input/clipping.py: skip empty
frames and point layers, repair invalid rows, try the vectorized clip, fall
back to the per-feature path when it raises, then extract collections,
drop empty geometries and compute the statistics. -/
def clip_geodataframe (rows : List Feature) (clip_boundary : Geom)
    (geometry_type : String) : List Feature × ClipMeta :=
  if rows.isEmpty then (rows, emptyClipMeta)
  else if geometry_type = "point" then (rows, emptyClipMeta)
  else
    match gpdClipE (rows.map (repairRow geometry_type)) clip_boundary with
    | .error _ =>
      clip_per_feature (rows.map (repairRow geometry_type)) clip_boundary geometry_type
        ((rows.map (fun f => count_vertices f.geom)).sum)
    | .ok clipped0 =>
      vectorizedResult geometry_type
        ((rows.map (fun f => count_vertices f.geom)).sum) clipped0

/-! ### Clip invariant lemmas -/

lemma makeValidE_ok {g r : Geom} (h : makeValidE g = Except.ok r) :
    r = { g with valid := true, hardness := g.hardness - 1 } := by
  unfold makeValidE at h
  split at h
  · injection h with h1
    exact h1.symm
  · exact Except.noConfusion h

lemma buffer0E_ok {g r : Geom} (h : buffer0E g = Except.ok r) :
    r = { g with valid := true, hardness := 0 } := by
  unfold buffer0E at h
  split at h
  · injection h with h1
    exact h1.symm
  · exact Except.noConfusion h

lemma intersectionE_ok {a b c : Geom} (h : intersectionE a b = Except.ok c) :
    c = interG a b := by
  unfold intersectionE at h
  split at h
  · injection h with h1
    exact h1.symm
  · exact Except.noConfusion h

lemma extract_geometry_type_some {g x : Geom} {t : String}
    (h : extract_geometry_type g t = some x) : x = g := by
  unfold extract_geometry_type at h
  split at h
  · exact Option.noConfusion h
  · split at h
    · injection h with h1
      exact h1.symm
    · split at h
      · injection h with h1
        exact h1.symm
      · exact Option.noConfusion h

lemma safe_repair_pts (gt : String) (g : Geom) :
    (safe_repair gt g).pts = g.pts ∧ (safe_repair gt g).shType = g.shType := by
  unfold safe_repair
  split
  · exact ⟨rfl, rfl⟩
  · next r0 hr0 =>
    have hr : r0 = { g with valid := true, hardness := g.hardness - 1 } :=
      makeValidE_ok hr0
    split
    · exact ⟨rfl, rfl⟩
    · next r hsome =>
      have hrr : r = r0 := by
        by_cases hGC : r0.shType = ShType.geometrycollection
        · rw [if_pos hGC] at hsome
          exact extract_geometry_type_some hsome
        · rw [if_neg hGC] at hsome
          exact (Option.some.inj hsome).symm
      split
      · exact ⟨rfl, rfl⟩
      · subst hrr
        rw [hr]
        exact ⟨rfl, rfl⟩

lemma repairRow_spec (gt : String) (f : Feature) :
    (repairRow gt f).geom.pts = f.geom.pts ∧
    (repairRow gt f).geom.shType = f.geom.shType ∧
    (repairRow gt f).fid = f.fid := by
  unfold repairRow
  split
  · exact ⟨rfl, rfl, rfl⟩
  · exact ⟨(safe_repair_pts gt f.geom).1, (safe_repair_pts gt f.geom).2, rfl⟩

lemma clipAttemptThree_some {cb : Geom} {gt : String} {g c : Geom} {cnt : Bool}
    (h : clipAttemptThree cb gt g = (some c, cnt)) :
    c.pts = g.pts.filter (fun p => decide (p ∈ cb.pts)) := by
  unfold clipAttemptThree at h
  split at h
  · simp at h
  · next d0 hd0 =>
    have hd : d0 = { g with valid := true, hardness := g.hardness - 1 } :=
      makeValidE_ok hd0
    split at h
    · simp at h
    · next d1 hd1 =>
      have hdd : d1 = d0 := by
        by_cases hGC : d0.shType = ShType.geometrycollection
        · rw [if_pos hGC] at hd1
          exact extract_geometry_type_some hd1
        · rw [if_neg hGC] at hd1
          exact (Option.some.inj hd1).symm
      split at h
      · simp at h
      · split at h
        · simp at h
        · next d2 hd2 =>
          have hb : d2 = { d1 with valid := true, hardness := 0 } := buffer0E_ok hd2
          split at h
          · simp at h
          · next c0 hc0 =>
            have hi : c0 = interG d2 cb := intersectionE_ok hc0
            injection h with h1 h2
            have hcc : c = c0 := (Option.some.inj h1).symm
            subst hcc
            rw [hi, hb, hdd, hd]
            rfl

lemma clipAttempt_some {cb : Geom} {gt : String} {g c : Geom} {cnt : Bool}
    (h : clipAttempt cb gt g = (some c, cnt)) :
    c.pts = g.pts.filter (fun p => decide (p ∈ cb.pts)) := by
  unfold clipAttempt at h
  split at h
  · next c0 hc0 =>
    have hi : c0 = interG g cb := intersectionE_ok hc0
    injection h with h1 h2
    have hcc : c = c0 := (Option.some.inj h1).symm
    subst hcc
    rw [hi]
    rfl
  · split at h
    · exact clipAttemptThree_some h
    · next r hr =>
      have hb : r = { g with valid := true, hardness := 0 } := buffer0E_ok hr
      split at h
      · simp at h
      · split at h
        · next c0 hc0 =>
          have hi : c0 = interG r cb := intersectionE_ok hc0
          injection h with h1 h2
          have hcc : c = c0 := (Option.some.inj h1).symm
          subst hcc
          rw [hi, hb]
          rfl
        · exact clipAttemptThree_some h

lemma clipAttemptThree_none_counted {cb : Geom} {gt : String} {g : Geom} {cnt : Bool}
    (hne : geomIsEmpty g = false) (hgc : g.shType ≠ ShType.geometrycollection)
    (h : clipAttemptThree cb gt g = (none, cnt)) : cnt = true := by
  unfold clipAttemptThree at h
  split at h
  · injection h with h1 h2
    exact h2.symm
  · next d0 hd0 =>
    have hd : d0 = { g with valid := true, hardness := g.hardness - 1 } :=
      makeValidE_ok hd0
    split at h
    · next hnone =>
      have hGC : ¬ d0.shType = ShType.geometrycollection := by
        rw [hd]
        exact hgc
      rw [if_neg hGC] at hnone
      exact Option.noConfusion hnone
    · next d1 hd1 =>
      have hdd : d1 = d0 := by
        by_cases hGC : d0.shType = ShType.geometrycollection
        · rw [if_pos hGC] at hd1
          exact extract_geometry_type_some hd1
        · rw [if_neg hGC] at hd1
          exact (Option.some.inj hd1).symm
      split at h
      · next hde =>
        have : geomIsEmpty d1 = false := by
          unfold geomIsEmpty at hne ⊢
          rw [hdd, hd]
          exact hne
        rw [this] at hde
        exact absurd hde (by simp)
      · split at h
        · injection h with h1 h2
          exact h2.symm
        · next d2 hd2 =>
          split at h
          · injection h with h1 h2
            exact h2.symm
          · simp at h

lemma clipAttempt_none_counted {cb : Geom} {gt : String} {g : Geom} {cnt : Bool}
    (hne : geomIsEmpty g = false) (hgc : g.shType ≠ ShType.geometrycollection)
    (h : clipAttempt cb gt g = (none, cnt)) : cnt = true := by
  unfold clipAttempt at h
  split at h
  · simp at h
  · split at h
    · exact clipAttemptThree_none_counted hne hgc h
    · next r hr =>
      have hb : r = { g with valid := true, hardness := 0 } := buffer0E_ok hr
      split at h
      · next hre =>
        have : geomIsEmpty r = false := by
          unfold geomIsEmpty at hne ⊢
          rw [hb]
          exact hne
        rw [this] at hre
        exact absurd hre (by simp)
      · split at h
        · simp at h
        · exact clipAttemptThree_none_counted hne hgc h

lemma clipFeatureStep_some {cb : Geom} {gt : String} {f f' : Feature}
    {o : ClipOutcome} (h : clipFeatureStep cb gt f = (some f', o)) :
    f'.fid = f.fid ∧
      (f'.geom.pts = f.geom.pts.filter (fun p => decide (p ∈ cb.pts)) ∨
       (f' = f ∧ (o = ClipOutcome.failedCounted ∨ o = ClipOutcome.failedUncounted))) := by
  unfold clipFeatureStep at h
  split at h
  · next hemp =>
    injection h with h1 h2
    have hf : f = f' := Option.some.inj h1
    subst hf
    refine ⟨rfl, Or.inl ?_⟩
    have hnil : f.geom.pts = [] := by
      unfold geomIsEmpty at hemp
      exact List.isEmpty_iff.mp hemp
    rw [hnil]
    rfl
  · next hemp =>
    split at h
    · next cnt hatt =>
      injection h with h1 h2
      have hf : f = f' := Option.some.inj h1
      subst hf
      refine ⟨rfl, Or.inr ⟨rfl, ?_⟩⟩
      cases cnt
      · right
        exact h2.symm
      · left
        exact h2.symm
    · next c0 cntv hatt =>
      have hc0 : c0.pts = f.geom.pts.filter (fun p => decide (p ∈ cb.pts)) :=
        clipAttempt_some hatt
      split at h
      · simp at h
      · next c2 hc2 =>
        have hcc2 : c2 = c0 := by
          by_cases hGC : c0.shType = ShType.geometrycollection
          · rw [if_pos hGC] at hc2
            exact extract_geometry_type_some hc2
          · rw [if_neg hGC] at hc2
            exact (Option.some.inj hc2).symm
        split at h
        · simp at h
        · split at h
          · simp at h
          · next c4 hc4 =>
            have hcc4 : c4.pts = c2.pts := by
              rcases hv : (!c2.valid) with _ | _
              · rw [if_neg (by simp [hv])] at hc4
                rw [← Option.some.inj hc4]
              · rw [if_pos (by simp [hv])] at hc4
                split at hc4
                · next r hmv =>
                  have hr : r = { c2 with valid := true, hardness := c2.hardness - 1 } :=
                    makeValidE_ok hmv
                  by_cases hGC : r.shType = ShType.geometrycollection
                  · rw [if_pos hGC] at hc4
                    rw [extract_geometry_type_some hc4, hr]
                  · rw [if_neg hGC] at hc4
                    rw [← Option.some.inj hc4, hr]
                · rw [← Option.some.inj hc4]
            split at h
            · simp at h
            · injection h with h1 h2
              have hf : f' = { fid := f.fid, geom := c4 } := (Option.some.inj h1).symm
              subst hf
              refine ⟨rfl, Or.inl ?_⟩
              rw [hcc4, hcc2, hc0]

lemma clipFeatureStep_not_uncounted {cb : Geom} {gt : String} {f : Feature}
    (hgc : f.geom.shType ≠ ShType.geometrycollection) :
    (clipFeatureStep cb gt f).2 ≠ ClipOutcome.failedUncounted := by
  unfold clipFeatureStep
  split
  · simp
  · next hemp =>
    have hne : geomIsEmpty f.geom = false := by
      simp only [Bool.not_eq_true] at hemp
      exact hemp
    split
    · next cnt hatt =>
      have : cnt = true := clipAttempt_none_counted hne hgc hatt
      subst this
      simp
    · next c0 cntv hatt =>
      split
      · simp
      · split
        · simp
        · split
          · simp
          · split
            · simp
            · simp

lemma sum_counts_filterMap_le (F : Feature → Option Feature) (l : List Feature)
    (h : ∀ f ∈ l, ∀ f', F f = some f' →
      count_vertices f'.geom ≤ count_vertices f.geom) :
    ((l.filterMap F).map (fun f => count_vertices f.geom)).sum ≤
      (l.map (fun f => count_vertices f.geom)).sum := by
  induction l with
  | nil => simp
  | cons a t ih =>
    have iht := ih (fun f hf f' hs => h f (List.mem_cons_of_mem a hf) f' hs)
    cases hF : F a with
    | none =>
      rw [List.filterMap_cons_none hF]
      simp only [List.map_cons, List.sum_cons]
      exact le_trans iht (Nat.le_add_left _ _)
    | some f' =>
      rw [List.filterMap_cons_some hF]
      simp only [List.map_cons, List.sum_cons]
      exact Nat.add_le_add (h a (List.mem_cons_self a t) f' hF) iht

lemma clipFeatureStep_count_le {cb : Geom} {gt : String} {f f' : Feature}
    (h : (clipFeatureStep cb gt f).1 = some f') :
    count_vertices f'.geom ≤ count_vertices f.geom := by
  have hs : clipFeatureStep cb gt f = (some f', (clipFeatureStep cb gt f).2) := by
    rw [← h]
  rcases (clipFeatureStep_some hs).2 with hp | ⟨hf, _⟩
  · unfold count_vertices
    rw [hp]
    exact List.length_filter_le _ _
  · subst hf
    exact le_refl _

lemma clip_per_feature_fst (rows : List Feature) (cb : Geom) (gt : String) (ovc : ℕ) :
    (clip_per_feature rows cb gt ovc).1 =
      (rows.map (clipFeatureStep cb gt)).filterMap Prod.fst := rfl

lemma clip_per_feature_failures (rows : List Feature) (cb : Geom) (gt : String) (ovc : ℕ) :
    (clip_per_feature rows cb gt ovc).2.clip_failures =
      ((rows.map (clipFeatureStep cb gt)).filter
        (fun s => s.2 = ClipOutcome.failedCounted)).length := rfl

lemma clip_per_feature_spec (rows : List Feature) (cb : Geom) (gt : String) (ovc : ℕ)
    (hgc : ∀ f ∈ rows, f.geom.shType ≠ ShType.geometrycollection) :
    (∀ f' ∈ (clip_per_feature rows cb gt ovc).1,
      ∃ f ∈ rows, f.fid = f'.fid ∧
        (f'.geom.pts = f.geom.pts.filter (fun p => decide (p ∈ cb.pts)) ∨
         (f'.geom.pts = f.geom.pts ∧
           1 ≤ (clip_per_feature rows cb gt ovc).2.clip_failures))) ∧
    ((clip_per_feature rows cb gt ovc).1.map (fun f => count_vertices f.geom)).sum ≤
      (rows.map (fun f => count_vertices f.geom)).sum := by
  constructor
  · intro f' hf'
    rw [clip_per_feature_fst, List.filterMap_map, List.mem_filterMap] at hf'
    obtain ⟨f, hfmem, hsome⟩ := hf'
    simp only [Function.comp] at hsome
    have hs : clipFeatureStep cb gt f = (some f', (clipFeatureStep cb gt f).2) := by
      rw [← hsome]
    obtain ⟨hfid, hd⟩ := clipFeatureStep_some hs
    refine ⟨f, hfmem, hfid.symm, ?_⟩
    rcases hd with hp | ⟨hff, ho⟩
    · exact Or.inl hp
    · right
      have hoc : (clipFeatureStep cb gt f).2 = ClipOutcome.failedCounted := by
        rcases ho with ho | ho
        · exact ho
        · exact absurd ho (clipFeatureStep_not_uncounted (hgc f hfmem))
      constructor
      · rw [hff]
      · rw [clip_per_feature_failures]
        have hmem2 : clipFeatureStep cb gt f ∈
            (rows.map (clipFeatureStep cb gt)).filter
              (fun s => s.2 = ClipOutcome.failedCounted) := by
          rw [List.mem_filter]
          refine ⟨List.mem_map_of_mem _ hfmem, ?_⟩
          rw [hoc]
          simp
        exact List.length_pos_of_mem hmem2
  · rw [clip_per_feature_fst, List.filterMap_map]
    exact sum_counts_filterMap_le _ rows (fun f _ f' hs => clipFeatureStep_count_le hs)

lemma gpdClipE_ok_spec {rows : List Feature} {b : Geom} {clipped0 : List Feature}
    (h : gpdClipE rows b = Except.ok clipped0) :
    (∀ f' ∈ clipped0, ∃ f ∈ rows, f.fid = f'.fid ∧
        f'.geom.pts = f.geom.pts.filter (fun p => decide (p ∈ b.pts))) ∧
    (clipped0.map (fun f => count_vertices f.geom)).sum ≤
      (rows.map (fun f => count_vertices f.geom)).sum := by
  unfold gpdClipE at h
  split at h
  · injection h with h1
    subst h1
    constructor
    · intro f' hf'
      rw [List.mem_filterMap] at hf'
      obtain ⟨f, hfmem, hsome⟩ := hf'
      dsimp only at hsome
      split at hsome
      · exact Option.noConfusion hsome
      · have he := Option.some.inj hsome
        refine ⟨f, hfmem, ?_, ?_⟩
        · rw [← he]
        · rw [← he]
          rfl
    · apply sum_counts_filterMap_le
      intro f _ f' hs
      dsimp only at hs
      split at hs
      · exact Option.noConfusion hs
      · rw [← Option.some.inj hs]
        unfold count_vertices interG
        exact List.length_filter_le _ _
  · exact Except.noConfusion h

lemma vectorizedResult_spec (gt : String) (ovc : ℕ) (clipped0 : List Feature) :
    (∀ f' ∈ (vectorizedResult gt ovc clipped0).1,
      ∃ f ∈ clipped0, f.fid = f'.fid ∧ f'.geom.pts = f.geom.pts) ∧
    ((vectorizedResult gt ovc clipped0).1.map (fun f => count_vertices f.geom)).sum ≤
      (clipped0.map (fun f => count_vertices f.geom)).sum := by
  have hfst : (vectorizedResult gt ovc clipped0).1 =
      (clipped0.map (fun f =>
        (f.fid,
         if f.geom.shType = ShType.geometrycollection then
           extract_geometry_type f.geom gt
         else some f.geom))).filterMap (fun p =>
        match p.2 with
        | none => none
        | some g => if geomIsEmpty g then none else some (⟨p.1, g⟩ : Feature)) := rfl
  constructor
  · intro f' hf'
    rw [hfst, List.filterMap_map, List.mem_filterMap] at hf'
    obtain ⟨f, hfmem, hsome⟩ := hf'
    simp only [Function.comp] at hsome
    split at hsome
    · exact Option.noConfusion hsome
    · next g hg =>
      have hgf : g = f.geom := by
        by_cases hGC : f.geom.shType = ShType.geometrycollection
        · rw [if_pos hGC] at hg
          exact extract_geometry_type_some hg
        · rw [if_neg hGC] at hg
          exact (Option.some.inj hg).symm
      split at hsome
      · exact Option.noConfusion hsome
      · have he := Option.some.inj hsome
        refine ⟨f, hfmem, ?_, ?_⟩
        · rw [← he]
        · rw [← he, hgf]
  · rw [hfst, List.filterMap_map]
    apply sum_counts_filterMap_le
    intro f _ f' hs
    simp only [Function.comp] at hs
    split at hs
    · exact Option.noConfusion hs
    · next g hg =>
      have hgf : g = f.geom := by
        by_cases hGC : f.geom.shType = ShType.geometrycollection
        · rw [if_pos hGC] at hg
          exact extract_geometry_type_some hg
        · rw [if_neg hGC] at hg
          exact (Option.some.inj hg).symm
      split at hs
      · exact Option.noConfusion hs
      · rw [← Option.some.inj hs]
        unfold count_vertices
        rw [hgf]

lemma repaired_counts (gt : String) (rows : List Feature) :
    ((rows.map (repairRow gt)).map (fun f => count_vertices f.geom)).sum =
      (rows.map (fun f => count_vertices f.geom)).sum := by
  rw [List.map_map]
  apply congrArg
  apply List.map_congr_left
  intro f _
  simp only [Function.comp]
  unfold count_vertices
  rw [(repairRow_spec gt f).1]

/-- Claim C5: for line/polygon layers, every feature surviving
`clip_geodataframe` is either a genuine clip — its geometry contained in
both the original feature geometry and the clip boundary — or the clip
failed, `clip_failures` was incremented, and the feature kept its original
geometry unchanged; and the total vertex count never increases.  (The rows
of a queried layer are never geometry collections, which the hypothesis
records.) -/
theorem C5_clip_invariant (rows : List Feature) (b : Geom) (gt : String)
    (out : List Feature) (m : ClipMeta)
    (hgt : gt ≠ "point")
    (hgc : ∀ f ∈ rows, f.geom.shType ≠ ShType.geometrycollection)
    (h : clip_geodataframe rows b gt = (out, m)) :
    (∀ f' ∈ out, ∃ f ∈ rows, f.fid = f'.fid ∧
      ((∀ p ∈ f'.geom.pts, p ∈ f.geom.pts ∧ p ∈ b.pts) ∨
       (f'.geom.pts = f.geom.pts ∧ 1 ≤ m.clip_failures))) ∧
    (out.map (fun f => count_vertices f.geom)).sum ≤
      (rows.map (fun f => count_vertices f.geom)).sum := by
  unfold clip_geodataframe at h
  split at h
  · next hrows =>
    have hre : rows = [] := List.isEmpty_iff.mp hrows
    injection h with h1 h2
    subst h1
    constructor
    · intro f' hf'
      rw [hre] at hf'
      exact absurd hf' (List.not_mem_nil f')
    · exact le_refl _
  · split at h
    · next herr =>
        have hgc' : ∀ f ∈ rows.map (repairRow gt),
            f.geom.shType ≠ ShType.geometrycollection := by
          intro f hf
          rw [List.mem_map] at hf
          obtain ⟨f0, hf0, hfe⟩ := hf
          rw [← hfe, (repairRow_spec gt f0).2.1]
          exact hgc f0 hf0
        obtain ⟨hmem, hsum⟩ := clip_per_feature_spec (rows.map (repairRow gt)) b gt
          ((rows.map (fun f => count_vertices f.geom)).sum) hgc'
        rw [h] at hmem hsum
        constructor
        · intro f' hf'
          obtain ⟨fr, hfr, hfid, hca⟩ := hmem f' hf'
          rw [List.mem_map] at hfr
          obtain ⟨f0, hf0, hfe⟩ := hfr
          refine ⟨f0, hf0, ?_, ?_⟩
          · rw [← hfid, ← hfe, (repairRow_spec gt f0).2.2]
          · rcases hca with hp | ⟨hpe, hcf⟩
            · left
              intro p hp2
              rw [hp, ← hfe, (repairRow_spec gt f0).1] at hp2
              rw [List.mem_filter] at hp2
              exact ⟨hp2.1, by simpa using hp2.2⟩
            · right
              constructor
              · rw [hpe, ← hfe, (repairRow_spec gt f0).1]
              · exact hcf
        · exact le_trans hsum (le_of_eq (repaired_counts gt rows))
    · next clipped0 hok =>
        obtain ⟨hvmem, hvsum⟩ := vectorizedResult_spec gt
          ((rows.map (fun f => count_vertices f.geom)).sum) clipped0
        obtain ⟨hgmem, hgsum⟩ := gpdClipE_ok_spec hok
        rw [h] at hvmem hvsum
        constructor
        · intro f' hf'
          obtain ⟨fc, hfc, hfid1, hpe1⟩ := hvmem f' hf'
          obtain ⟨fr, hfr, hfid2, hpe2⟩ := hgmem fc hfc
          rw [List.mem_map] at hfr
          obtain ⟨f0, hf0, hfe⟩ := hfr
          refine ⟨f0, hf0, ?_, Or.inl ?_⟩
          · rw [← hfid1, ← hfid2, ← hfe, (repairRow_spec gt f0).2.2]
          · intro p hp2
            rw [hpe1, hpe2, ← hfe, (repairRow_spec gt f0).1] at hp2
            rw [List.mem_filter] at hp2
            exact ⟨hp2.1, by simpa using hp2.2⟩
        · calc (out.map (fun f => count_vertices f.geom)).sum
              ≤ (clipped0.map (fun f => count_vertices f.geom)).sum := hvsum
            _ ≤ ((rows.map (repairRow gt)).map (fun f => count_vertices f.geom)).sum :=
              hgsum
            _ = (rows.map (fun f => count_vertices f.geom)).sum := repaired_counts gt rows

/-! ### src/core/arcgis_query.py

HTTP traffic is abstracted into an environment `Env`: the outcome of the
polygon-strategy POST, of the envelope POST, of the layer-metadata GET, and
of each pagination page POST, plus a wall-clock reading at the top of each
pagination iteration (for the total-time budget check).  `query_time`
metadata (pure wall clock) and the `query_vertices` /
`simplification_applied` echo fields are not modelled. -/

inductive ReqOutcome (α : Type)
  | success (v : α)
  | timeout
  | reqError (msg : String)

/-- One ESRI JSON feature of a server response; the `Option` geometry folds
the point/paths/rings structural checks of the converter into payload
presence. -/
structure EsriFeature where
  fid : ℕ
  geom : Option Geom
deriving Repr, DecidableEq

/-- A parsed server response body: the optional error payload, the feature
array, and the `exceededTransferLimit` flag. -/
structure QueryResponse where
  error : Option String
  features : List EsriFeature
  exceededTransferLimit : Bool
deriving Repr, DecidableEq

/-- A parsed layer-metadata response body. -/
structure LayerMetaPayload where
  error : Option String
  supports_pagination : Bool
  max_record_count : ℕ
  oid_field : Option String
deriving Repr, DecidableEq

/-- The dictionary `fetch_layer_metadata` builds on success. -/
structure LayerMetaInfo where
  supports_pagination : Bool
  max_record_count : ℕ
  oid_field : Option String
deriving Repr, DecidableEq

/-- The network environment one layer query runs against. -/
structure Env where
  polygonResp : ReqOutcome QueryResponse
  envelopeResp : ReqOutcome QueryResponse
  metaResp : ReqOutcome LayerMetaPayload
  pages : ℕ → ReqOutcome QueryResponse
  pageElapsed : ℕ → ℚ

/-- `fetch_layer_metadata` from src/core/arcgis_query.py: parse the layer
metadata endpoint, catching errors into the second component. -/
def fetch_layer_metadata (env : Env) : Option LayerMetaInfo × Option String :=
  match env.metaResp with
  | .success d =>
    match d.error with
    | some msg => (none, some ("Layer metadata error: " ++ msg))
    | none =>
      (some { supports_pagination := d.supports_pagination
              max_record_count := d.max_record_count
              oid_field := d.oid_field }, none)
  | .timeout => (none, some ("Metadata request timed out"))
  | .reqError e => (none, some ("Metadata request failed: " ++ e))

/-- The pagination metadata dictionary of `paginated_query`
(`pagination_time` is wall clock and not modelled). -/
structure PagMeta where
  pages_fetched : ℕ
  total_features_fetched : ℕ
  exceeded_limit_final : Bool
  stopped_reason : Option String
deriving Repr, DecidableEq

/-- Loop state of `paginated_query`: accumulated features, the iteration
counter, the last successful response's `exceededTransferLimit` flag, and
the stop reason set by a break. -/
structure PagState where
  feats : List EsriFeature
  iteration : ℕ
  lastExceeded : Bool
  stopped_reason : Option String
deriving Repr, DecidableEq

/-- The `while iteration < max_iterations` loop of `paginated_query`
(src/core/arcgis_query.py lines 171-225), with the remaining iteration
budget as fuel.  Each iteration checks the elapsed-time budget, posts page
`iteration`, and either breaks (timeout, request error, server error
payload, or a non-truncated page) or continues at the next offset. -/
def pagLoop (pages : ℕ → ReqOutcome QueryResponse) (elapsedAt : ℕ → ℚ)
    (total_timeout : ℚ) : ℕ → PagState → PagState
  | 0, s => s
  | fuel + 1, s =>
    if total_timeout ≤ elapsedAt s.iteration then
      { s with stopped_reason := some ("timeout") }
    else
      match pages s.iteration with
      | .timeout => { s with stopped_reason := some ("request_timeout") }
      | .reqError e => { s with stopped_reason := some ("request_error: " ++ e) }
      | .success r =>
        match r.error with
        | some msg => { s with stopped_reason := some ("error: " ++ msg) }
        | none =>
          if r.exceededTransferLimit then
            pagLoop pages elapsedAt total_timeout fuel
              { feats := s.feats ++ r.features, iteration := s.iteration + 1
                lastExceeded := true, stopped_reason := none }
          else
            { feats := s.feats ++ r.features, iteration := s.iteration + 1
              lastExceeded := false, stopped_reason := none }

/-- `paginated_query` from src/core/arcgis_query.py: run the loop, then the
post-loop check marking `max_iterations` when the budget was used up while
the last page still reported truncation.  (At `max_iterations = 0` the
Python would hit an unbound `result`; the model returns the initial state,
and no claim concerns that configuration.) -/
def paginated_query (env : Env) (max_iterations : ℕ) (total_timeout : ℚ) :
    List EsriFeature × PagMeta :=
  let s := pagLoop env.pages env.pageElapsed total_timeout max_iterations
    { feats := [], iteration := 0, lastExceeded := false, stopped_reason := none }
  let hitMax := decide (max_iterations ≤ s.iteration) && s.lastExceeded
  (s.feats,
   { pages_fetched := s.iteration
     total_features_fetched := s.feats.length
     exceeded_limit_final := hitMax
     stopped_reason := if hitMax then some ("max_iterations") else s.stopped_reason })

/-- The `pagination` metadata dictionary stored by `query_arcgis_layer`. -/
structure PagInfo where
  used : Bool
  supports_pagination : Bool
  oid_field : Option String
  max_record_count : Option ℕ
  pages_fetched : Option ℕ
  stopped_reason : Option String
  reason : Option String
deriving Repr, DecidableEq

/-- The per-layer metadata dictionary of `query_arcgis_layer`
(`query_time`, `query_vertices`, `simplification_applied`,
`original_vertices` omitted: wall clock / input echoes). -/
structure QMeta where
  layer_name : String
  feature_count : ℕ
  warning : Option String
  error : Option String
  query_method : String
  query_fallback_reason : Option String
  server_count : Option ℕ
  filtered_count : Option ℕ
  clipping : Option ClipMeta
  pagination : Option PagInfo
  results_incomplete : Bool
  incomplete_reason : Option String
deriving Repr, DecidableEq

/-- `convert_esri_to_geojson` from src/utils/geometry_converters.py: a
feature converts exactly when its ESRI geometry payload is present and
recognized. -/
def convert_esri_to_geojson (ef : EsriFeature) : Option Feature :=
  match ef.geom with
  | none => none
  | some g => some { fid := ef.fid, geom := g }

/-- What the pagination block of `query_arcgis_layer` produces. -/
structure PagBlockOut where
  feats : List EsriFeature
  pagination : Option PagInfo
  results_incomplete : Bool
  incomplete_reason : Option String
  warning : Option String
deriving Repr, DecidableEq

/-- The pagination block of `query_arcgis_layer`
(src/core/arcgis_query.py lines 442-545): when the first response was
truncated and pagination is enabled, consult the layer metadata; run the
full paginated query when an ObjectID ordering field exists; otherwise keep
the first page and mark the result incomplete (a failed metadata fetch
lands in the `pagination_not_supported` branch, as in the source). -/
def paginationBlock (env : Env) (pagination_enabled : Bool)
    (max_iterations : ℕ) (total_timeout : ℚ) (r : QueryResponse) : PagBlockOut :=
  if r.exceededTransferLimit && pagination_enabled then
    match (fetch_layer_metadata env).1 with
    | some lm =>
      if lm.supports_pagination then
        match lm.oid_field with
        | some oid =>
          { feats := (paginated_query env max_iterations total_timeout).1
            pagination := some
              { used := true, supports_pagination := true, oid_field := some oid
                max_record_count := some lm.max_record_count
                pages_fetched :=
                  some (paginated_query env max_iterations total_timeout).2.pages_fetched
                stopped_reason :=
                  (paginated_query env max_iterations total_timeout).2.stopped_reason
                reason := none }
            results_incomplete :=
              (paginated_query env max_iterations total_timeout).2.stopped_reason.isSome ||
              (paginated_query env max_iterations total_timeout).2.exceeded_limit_final
            incomplete_reason :=
              if (paginated_query env max_iterations total_timeout).2.stopped_reason.isSome ||
                  (paginated_query env max_iterations total_timeout).2.exceeded_limit_final then
                some ((paginated_query env max_iterations
                  total_timeout).2.stopped_reason.getD ("exceeded_limit"))
              else none
            warning := none }
        | none =>
          { feats := r.features
            pagination := some
              { used := false, supports_pagination := true, oid_field := none
                max_record_count := none, pages_fetched := none
                stopped_reason := none, reason := some ("no_oid_field") }
            results_incomplete := true
            incomplete_reason := some ("no_oid_field")
            warning := none }
      else
        { feats := r.features
          pagination := some
            { used := false, supports_pagination := false, oid_field := none
              max_record_count := none, pages_fetched := none
              stopped_reason := none, reason := none }
          results_incomplete := true
          incomplete_reason := some ("pagination_not_supported")
          warning := none }
    | none =>
      { feats := r.features
        pagination := some
          { used := false, supports_pagination := false, oid_field := none
            max_record_count := none, pages_fetched := none
            stopped_reason := none, reason := none }
        results_incomplete := true
        incomplete_reason := some ("pagination_not_supported")
        warning := none }
  else if r.exceededTransferLimit && !pagination_enabled then
    { feats := r.features
      pagination := none
      results_incomplete := true
      incomplete_reason := some ("pagination_disabled")
      warning := some ("Result exceeded server limit. Showing first page.") }
  else
    { feats := r.features
      pagination := none
      results_incomplete := false
      incomplete_reason := none
      warning := none }

/-- The features a layer query serves after ESRI→GeoJSON conversion. -/
def servedFeatures (env : Env) (pagination_enabled : Bool) (max_iterations : ℕ)
    (total_timeout : ℚ) (r : QueryResponse) : List Feature :=
  (paginationBlock env pagination_enabled max_iterations total_timeout r).feats.filterMap
    convert_esri_to_geojson

/-- The client-side precise intersection filter (line 561). -/
def clientFilter (polygon : Geom) (conv : List Feature) : List Feature :=
  conv.filter (fun f => intersectsB f.geom polygon)

/-- The clipping stage (lines 572-578): clip only when a boundary exists,
the layer is a line or polygon layer, and there are features left. -/
def clipStage (clip_boundary : Option Geom) (geometry_type : Option String)
    (filtered : List Feature) : List Feature × Option ClipMeta :=
  match clip_boundary with
  | some cb =>
    if (geometry_type = some ("line") ∨ geometry_type = some ("polygon")) ∧
        0 < filtered.length then
      ((clip_geodataframe filtered cb (geometry_type.getD "")).1,
       some (clip_geodataframe filtered cb (geometry_type.getD "")).2)
    else (filtered, none)
  | none => (filtered, none)

/-- The fields of the metadata a successful request produces, before the
query method and fallback reason are attached. -/
structure ProcOut where
  feats : Option (List Feature)
  feature_count : ℕ
  warning : Option String
  server_count : Option ℕ
  filtered_count : Option ℕ
  clipping : Option ClipMeta
  pagination : Option PagInfo
  results_incomplete : Bool
  incomplete_reason : Option String
deriving Repr, DecidableEq

/-- The feature-processing tail of `query_arcgis_layer`
(src/core/arcgis_query.py lines 441-588): the no-features early return,
pagination handling, conversion, client-side filtering, clipping, and the
final counts. -/
def processResponse (env : Env) (polygon : Geom) (clip_boundary : Option Geom)
    (geometry_type : Option String) (pagination_enabled : Bool)
    (max_iterations : ℕ) (total_timeout : ℚ) (r : QueryResponse) : ProcOut :=
  if r.features.isEmpty then
    { feats := none, feature_count := 0, warning := none, server_count := none
      filtered_count := none, clipping := none, pagination := none
      results_incomplete := false, incomplete_reason := none }
  else
    { feats := some (clipStage clip_boundary geometry_type
        (clientFilter polygon
          (servedFeatures env pagination_enabled max_iterations total_timeout r))).1
      feature_count := (clipStage clip_boundary geometry_type
        (clientFilter polygon
          (servedFeatures env pagination_enabled max_iterations total_timeout r))).1.length
      warning := (paginationBlock env pagination_enabled max_iterations total_timeout r).warning
      server_count :=
        some (servedFeatures env pagination_enabled max_iterations total_timeout r).length
      filtered_count :=
        some ((servedFeatures env pagination_enabled max_iterations total_timeout r).length -
          (clientFilter polygon
            (servedFeatures env pagination_enabled max_iterations total_timeout r)).length)
      clipping := (clipStage clip_boundary geometry_type
        (clientFilter polygon
          (servedFeatures env pagination_enabled max_iterations total_timeout r))).2
      pagination :=
        (paginationBlock env pagination_enabled max_iterations total_timeout r).pagination
      results_incomplete :=
        (paginationBlock env pagination_enabled max_iterations total_timeout r).results_incomplete
      incomplete_reason :=
        (paginationBlock env pagination_enabled max_iterations total_timeout r).incomplete_reason }

/-- The polygon-strategy attempt (src/core/arcgis_query.py lines 344-400):
issued only when polygon queries are in force and a precomputed ESRI JSON
payload exists; a transport failure or a server error payload records the
fallback reason and leaves no usable response. -/
def polygonAttempt (env : Env) (use_polygon_query : Bool)
    (esri_polygon_json : Option String) : Option QueryResponse × Option String :=
  if use_polygon_query && esri_polygon_json.isSome then
    match env.polygonResp with
    | .success r =>
      match r.error with
      | some msg => (none, some ("esri_error: " ++ msg))
      | none => (some r, none)
    | .timeout => (none, some ("timeout"))
    | .reqError e => (none, some ("request_error: " ++ e))
  else (none, none)

/-- Attach the query method, fallback reason and layer name to a processed
response. -/
def assembleMeta (layer_name : String) (query_method : String)
    (fb : Option String) (p : ProcOut) : Option (List Feature) × QMeta :=
  (p.feats,
   { layer_name := layer_name, feature_count := p.feature_count
     warning := p.warning, error := none, query_method := query_method
     query_fallback_reason := fb, server_count := p.server_count
     filtered_count := p.filtered_count, clipping := p.clipping
     pagination := p.pagination, results_incomplete := p.results_incomplete
     incomplete_reason := p.incomplete_reason })

/-- The metadata returned when the whole query raises
(src/core/arcgis_query.py lines 590-602): the error message is recorded,
the feature count stays 0, and `query_method` keeps its initial
`envelope` value since line 439 was never reached, while a fallback reason
already written into the dictionary survives. -/
def errMeta (layer_name : String) (fb : Option String) (msg : String) : QMeta :=
  { layer_name := layer_name, feature_count := 0, warning := none
    error := some msg, query_method := "envelope", query_fallback_reason := fb
    server_count := none, filtered_count := none, clipping := none
    pagination := none, results_incomplete := false, incomplete_reason := none }

/-- `query_arcgis_layer` from src/core/arcgis_query.py: polygon attempt,
envelope fallback (an exception of the envelope request escapes to the
outer handler), then response processing. -/
def query_arcgis_layer (env : Env) (layer_name : String) (polygon : Geom)
    (clip_boundary : Option Geom) (geometry_type : Option String)
    (use_polygon_query : Bool) (esri_polygon_json : Option String)
    (pagination_enabled : Bool) (pagination_max_iterations : ℕ)
    (pagination_total_timeout : ℚ) : Option (List Feature) × QMeta :=
  match polygonAttempt env use_polygon_query esri_polygon_json with
  | (some r, fb) =>
    assembleMeta layer_name "polygon" fb
      (processResponse env polygon clip_boundary geometry_type pagination_enabled
        pagination_max_iterations pagination_total_timeout r)
  | (none, fb) =>
    match env.envelopeResp with
    | .success r =>
      assembleMeta layer_name
        (if use_polygon_query then "envelope_fallback" else "envelope") fb
        (processResponse env polygon clip_boundary geometry_type pagination_enabled
          pagination_max_iterations pagination_total_timeout r)
    | .timeout => (none, errMeta layer_name fb ("Request failed: timed out"))
    | .reqError e => (none, errMeta layer_name fb ("Request failed: " ++ e))

/-! ### Client-filter invariant and failure isolation -/

lemma gpdClipE_ok_len {rows : List Feature} {b : Geom} {clipped0 : List Feature}
    (h : gpdClipE rows b = Except.ok clipped0) : clipped0.length ≤ rows.length := by
  unfold gpdClipE at h
  split at h
  · injection h with h1
    subst h1
    exact List.length_filterMap_le _ _
  · exact Except.noConfusion h

lemma vectorizedResult_length_le (gt : String) (ovc : ℕ) (clipped0 : List Feature) :
    (vectorizedResult gt ovc clipped0).1.length ≤ clipped0.length := by
  have h := List.length_filterMap_le (fun p =>
    match p.2 with
    | none => none
    | some g => if geomIsEmpty g then none else some (⟨p.1, g⟩ : Feature))
    (clipped0.map (fun f =>
      (f.fid,
       if f.geom.shType = ShType.geometrycollection then
         extract_geometry_type f.geom gt
       else some f.geom)))
  rw [List.length_map] at h
  exact h

lemma clip_geodataframe_length_le (rows : List Feature) (cb : Geom) (gt : String) :
    (clip_geodataframe rows cb gt).1.length ≤ rows.length := by
  unfold clip_geodataframe
  split
  · exact le_refl _
  · split
    · exact le_refl _
    · split
      · next herr =>
        rw [clip_per_feature_fst]
        calc (((rows.map (repairRow gt)).map (clipFeatureStep cb gt)).filterMap
              Prod.fst).length
            ≤ ((rows.map (repairRow gt)).map (clipFeatureStep cb gt)).length :=
              List.length_filterMap_le _ _
          _ = (rows.map (repairRow gt)).length := List.length_map _ _
          _ = rows.length := List.length_map _ _
      · next clipped0 hok =>
        calc (vectorizedResult gt ((rows.map (fun f => count_vertices f.geom)).sum)
              clipped0).1.length
            ≤ clipped0.length := vectorizedResult_length_le _ _ _
          _ ≤ (rows.map (repairRow gt)).length := gpdClipE_ok_len hok
          _ = rows.length := List.length_map _ _

lemma clipStage_length_le (cb : Option Geom) (gt : Option String)
    (l : List Feature) : (clipStage cb gt l).1.length ≤ l.length := by
  unfold clipStage
  split
  · split
    · exact clip_geodataframe_length_le _ _ _
    · exact le_refl _
  · exact le_refl _

lemma processResponse_count_le (env : Env) (polygon : Geom)
    (cb : Option Geom) (gt : Option String) (pe : Bool) (mi : ℕ) (tt : ℚ)
    (r : QueryResponse) :
    ∀ sc, (processResponse env polygon cb gt pe mi tt r).server_count = some sc →
      (processResponse env polygon cb gt pe mi tt r).feature_count ≤ sc := by
  unfold processResponse
  split
  · intro sc h
    exact Option.noConfusion h
  · intro sc h
    have hsc : (servedFeatures env pe mi tt r).length = sc := Option.some.inj h
    calc (clipStage cb gt (clientFilter polygon (servedFeatures env pe mi tt r))).1.length
        ≤ (clientFilter polygon (servedFeatures env pe mi tt r)).length :=
          clipStage_length_le _ _ _
      _ ≤ (servedFeatures env pe mi tt r).length := List.length_filter_le _ _
      _ = sc := hsc

/-- Claim C2: in every metadata record carrying a `server_count`, the final
`feature_count` — after client-side intersection filtering and clipping —
never exceeds it. -/
theorem C2_feature_count_le_server_count (env : Env) (layer_name : String)
    (polygon : Geom) (clip_boundary : Option Geom) (geometry_type : Option String)
    (use_polygon_query : Bool) (esri_polygon_json : Option String)
    (pagination_enabled : Bool) (mi : ℕ) (tt : ℚ) :
    ∀ sc,
      (query_arcgis_layer env layer_name polygon clip_boundary geometry_type
          use_polygon_query esri_polygon_json pagination_enabled mi tt).2.server_count =
        some sc →
      (query_arcgis_layer env layer_name polygon clip_boundary geometry_type
          use_polygon_query esri_polygon_json pagination_enabled mi tt).2.feature_count ≤
        sc := by
  unfold query_arcgis_layer
  split
  · next r fb hpa =>
    exact processResponse_count_le env polygon clip_boundary geometry_type
      pagination_enabled mi tt r
  · next fb hpa =>
    split
    · next r henv =>
      exact processResponse_count_le env polygon clip_boundary geometry_type
        pagination_enabled mi tt r
    · intro sc h
      exact Option.noConfusion h
    · intro sc h
      exact Option.noConfusion h

/-- The configuration of one layer (`LayerConfig`): its name, enabled flag
and geometry type (URL and layer id live in the environment). -/
structure LayerCfg where
  name : String
  enabled : Bool
  geometry_type : Option String
deriving Repr, DecidableEq

/-- The per-layer loop of `process_all_layers`
(src/core/layer_processor.py lines 195-224): disabled layers are skipped;
every queried layer contributes a metadata entry; layers returning a frame
contribute a result entry. -/
def processLayersLoop (q : LayerCfg → Option (List Feature) × QMeta) :
    List LayerCfg → List (String × List Feature) × List (String × QMeta)
  | [] => ([], [])
  | c :: rest =>
    if c.enabled then
      ((match (q c).1 with
        | some gdf => (c.name, gdf) :: (processLayersLoop q rest).1
        | none => (processLayersLoop q rest).1),
       (c.name, (q c).2) :: (processLayersLoop q rest).2)
    else processLayersLoop q rest

/-- Claim C3: an unrecoverable error inside one layer query — the envelope
request failing after the polygon attempt yielded nothing — produces
`(None, metadata)` with a non-None error message and `feature_count = 0`;
and the per-layer loop visits every enabled layer no matter what each query
returns, so one layer's failure never aborts the run. -/
theorem C3_layer_failure_isolated :
    (∀ (env : Env) (layer_name : String) (polygon : Geom)
       (clip_boundary : Option Geom) (geometry_type : Option String)
       (use_polygon_query : Bool) (esri_polygon_json : Option String)
       (pagination_enabled : Bool) (mi : ℕ) (tt : ℚ),
      (polygonAttempt env use_polygon_query esri_polygon_json).1 = none →
      (env.envelopeResp = ReqOutcome.timeout ∨
        ∃ e, env.envelopeResp = ReqOutcome.reqError e) →
      (query_arcgis_layer env layer_name polygon clip_boundary geometry_type
          use_polygon_query esri_polygon_json pagination_enabled mi tt).1 = none ∧
      ((query_arcgis_layer env layer_name polygon clip_boundary geometry_type
          use_polygon_query esri_polygon_json pagination_enabled mi tt).2.error).isSome =
        true ∧
      (query_arcgis_layer env layer_name polygon clip_boundary geometry_type
          use_polygon_query esri_polygon_json pagination_enabled mi tt).2.feature_count =
        0) ∧
    (∀ (q : LayerCfg → Option (List Feature) × QMeta) (cfgs : List LayerCfg),
      ((processLayersLoop q cfgs).2.map Prod.fst) =
        (cfgs.filter (fun c => c.enabled)).map LayerCfg.name) := by
  constructor
  · intro env layer_name polygon cb gt upq esri pe mi tt h1 h2
    have hfb : polygonAttempt env upq esri =
        (none, (polygonAttempt env upq esri).2) := by
      rw [← h1]
    rcases h2 with henv | ⟨e, henv⟩
    · unfold query_arcgis_layer
      rw [hfb, henv]
      exact ⟨rfl, rfl, rfl⟩
    · unfold query_arcgis_layer
      rw [hfb, henv]
      exact ⟨rfl, rfl, rfl⟩
  · intro q cfgs
    induction cfgs with
    | nil => rfl
    | cons c rest ih =>
      by_cases hen : c.enabled
      · simp [processLayersLoop, List.filter_cons, hen, ih]
      · simp [processLayersLoop, List.filter_cons, hen, ih]

/-- Claim C8: when the polygon-strategy request fails — transport error,
timeout, or a server-reported error payload — and the envelope fallback
succeeds, the metadata records `query_method = envelope_fallback` with a
populated fallback reason, and the returned feature set (and final count)
is identical to what an envelope-only query (`use_polygon_query = False`)
would have produced after client-side filtering and clipping. -/
theorem C8_envelope_fallback_equiv (env : Env) (layer_name : String)
    (polygon : Geom) (clip_boundary : Option Geom) (geometry_type : Option String)
    (esri2 : Option String) (pagination_enabled : Bool) (mi : ℕ) (tt : ℚ)
    (j : String)
    (hpf : (∃ r, env.polygonResp = ReqOutcome.success r ∧ r.error.isSome = true) ∨
      env.polygonResp = ReqOutcome.timeout ∨
      ∃ e, env.polygonResp = ReqOutcome.reqError e)
    (r0 : QueryResponse) (henv : env.envelopeResp = ReqOutcome.success r0) :
    (query_arcgis_layer env layer_name polygon clip_boundary geometry_type
        true (some j) pagination_enabled mi tt).1 =
      (query_arcgis_layer env layer_name polygon clip_boundary geometry_type
        false esri2 pagination_enabled mi tt).1 ∧
    (query_arcgis_layer env layer_name polygon clip_boundary geometry_type
        true (some j) pagination_enabled mi tt).2.query_method =
      "envelope_fallback" ∧
    ((query_arcgis_layer env layer_name polygon clip_boundary geometry_type
        true (some j) pagination_enabled mi tt).2.query_fallback_reason).isSome =
      true ∧
    (query_arcgis_layer env layer_name polygon clip_boundary geometry_type
        true (some j) pagination_enabled mi tt).2.feature_count =
      (query_arcgis_layer env layer_name polygon clip_boundary geometry_type
        false esri2 pagination_enabled mi tt).2.feature_count := by
  have hpa : ∃ reason, polygonAttempt env true (some j) = (none, some reason) := by
    unfold polygonAttempt
    rcases hpf with ⟨r, hr, herr⟩ | hto | ⟨e, hre⟩
    · rw [hr]
      rcases hm : r.error with _ | msg
      · rw [hm] at herr
        exact absurd herr (by simp)
      · exact ⟨"esri_error: " ++ msg, by simp [hm]⟩
    · rw [hto]
      exact ⟨"timeout", rfl⟩
    · rw [hre]
      exact ⟨"request_error: " ++ e, rfl⟩
  obtain ⟨reason, hpa⟩ := hpa
  have hpb : polygonAttempt env false esri2 = (none, none) := rfl
  unfold query_arcgis_layer
  rw [hpa, hpb, henv]
  exact ⟨rfl, rfl, rfl, rfl⟩

/-! ### Pagination bounds (claim C4) -/

lemma pagLoop_iteration_le (pages : ℕ → ReqOutcome QueryResponse)
    (elapsedAt : ℕ → ℚ) (tt : ℚ) :
    ∀ (fuel : ℕ) (s : PagState),
      (pagLoop pages elapsedAt tt fuel s).iteration ≤ s.iteration + fuel := by
  intro fuel
  induction fuel with
  | zero =>
    intro s
    simp [pagLoop]
  | succ k ih =>
    intro s
    rw [pagLoop]
    split
    · exact Nat.le_add_right _ _
    · split
      · exact Nat.le_add_right _ _
      · exact Nat.le_add_right _ _
      · next r hr =>
        split
        · exact Nat.le_add_right _ _
        · split
          · have h2 := ih ⟨s.feats ++ r.features, s.iteration + 1, true, none⟩
            have h3 : (PagState.mk (s.feats ++ r.features) (s.iteration + 1) true
                none).iteration = s.iteration + 1 := rfl
            rw [h3] at h2
            exact le_trans h2 (by omega)
          · show s.iteration + 1 ≤ s.iteration + (k + 1)
            omega

lemma pagLoop_all_exceeded (pages : ℕ → ReqOutcome QueryResponse)
    (elapsedAt : ℕ → ℚ) (tt : ℚ)
    (hp : ∀ i, ∃ fs, pages i = ReqOutcome.success
      { error := none, features := fs, exceededTransferLimit := true })
    (ht : ∀ i, elapsedAt i < tt) :
    ∀ (fuel : ℕ), 1 ≤ fuel → ∀ (s : PagState),
      (pagLoop pages elapsedAt tt fuel s).iteration = s.iteration + fuel ∧
      (pagLoop pages elapsedAt tt fuel s).stopped_reason = none ∧
      (pagLoop pages elapsedAt tt fuel s).lastExceeded = true := by
  intro fuel
  induction fuel with
  | zero =>
    intro hcon
    exact absurd hcon (by omega)
  | succ k ih =>
    intro _ s
    obtain ⟨fs, hpg⟩ := hp s.iteration
    have hnt : ¬ tt ≤ elapsedAt s.iteration := not_le.mpr (ht s.iteration)
    rw [pagLoop, if_neg hnt, hpg]
    dsimp only
    rw [if_pos rfl]
    rcases Nat.eq_zero_or_pos k with hk0 | hkpos
    · subst hk0
      simp [pagLoop]
    · have h2 := ih (by omega) ⟨s.feats ++ fs, s.iteration + 1, true, none⟩
      have h3 : (PagState.mk (s.feats ++ fs) (s.iteration + 1) true
          none).iteration = s.iteration + 1 := rfl
      rw [h3] at h2
      refine ⟨?_, h2.2.1, h2.2.2⟩
      rw [h2.1]
      omega

lemma paginated_query_pages_le (env : Env) (mi : ℕ) (tt : ℚ) :
    (paginated_query env mi tt).2.pages_fetched ≤ mi := by
  have h := pagLoop_iteration_le env.pages env.pageElapsed tt mi
    { feats := [], iteration := 0, lastExceeded := false, stopped_reason := none }
  rw [Nat.zero_add] at h
  exact h

lemma paginated_query_all_exceeded (env : Env) (mi : ℕ) (tt : ℚ)
    (hp : ∀ i, ∃ fs, env.pages i = ReqOutcome.success
      { error := none, features := fs, exceededTransferLimit := true })
    (ht : ∀ i, env.pageElapsed i < tt) (hmi : 1 ≤ mi) :
    (paginated_query env mi tt).2.pages_fetched = mi ∧
    (paginated_query env mi tt).2.stopped_reason = some ("max_iterations") ∧
    (paginated_query env mi tt).2.exceeded_limit_final = true := by
  obtain ⟨hit, hstop, hlast⟩ := pagLoop_all_exceeded env.pages env.pageElapsed tt hp ht
    mi hmi { feats := [], iteration := 0, lastExceeded := false, stopped_reason := none }
  dsimp only at hit
  rw [Nat.zero_add] at hit
  unfold paginated_query
  simp only [hit, hlast, hstop]
  simp

lemma paginationBlock_max_iterations (env : Env) (mi : ℕ) (tt : ℚ)
    (r0 : QueryResponse) (d : LayerMetaPayload) (oid : String)
    (hexc : r0.exceededTransferLimit = true)
    (hmeta : env.metaResp = ReqOutcome.success d)
    (herrd : d.error = none) (hsup : d.supports_pagination = true)
    (hoid : d.oid_field = some oid)
    (hstop : (paginated_query env mi tt).2.stopped_reason = some ("max_iterations")) :
    (paginationBlock env true mi tt r0).results_incomplete = true ∧
    (paginationBlock env true mi tt r0).incomplete_reason = some ("max_iterations") := by
  unfold paginationBlock fetch_layer_metadata
  rw [hexc, hmeta]
  simp only [herrd, hsup, hoid, hstop]
  simp

/-- Claim C4: `paginated_query` fetches at most `max_iterations` pages; a
remote layer whose every page reports `exceededTransferLimit` (without
timeouts or request errors) stops exactly at `max_iterations` pages with
`stopped_reason = max_iterations` and `exceeded_limit_final = True`; and
`query_arcgis_layer` then marks the layer `results_incomplete` with
`incomplete_reason = max_iterations`. -/
theorem C4_pagination_stops_at_max_iterations :
    (∀ (env : Env) (mi : ℕ) (tt : ℚ),
      (paginated_query env mi tt).2.pages_fetched ≤ mi) ∧
    (∀ (env : Env) (mi : ℕ) (tt : ℚ),
      (∀ i, ∃ fs, env.pages i = ReqOutcome.success
        { error := none, features := fs, exceededTransferLimit := true }) →
      (∀ i, env.pageElapsed i < tt) →
      1 ≤ mi →
      (paginated_query env mi tt).2.pages_fetched = mi ∧
      (paginated_query env mi tt).2.stopped_reason = some ("max_iterations") ∧
      (paginated_query env mi tt).2.exceeded_limit_final = true) ∧
    (∀ (env : Env) (layer_name : String) (polygon : Geom)
       (cb : Option Geom) (gt : Option String) (mi : ℕ) (tt : ℚ)
       (r0 : QueryResponse) (d : LayerMetaPayload) (oid : String),
      (∀ i, ∃ fs, env.pages i = ReqOutcome.success
        { error := none, features := fs, exceededTransferLimit := true }) →
      (∀ i, env.pageElapsed i < tt) →
      1 ≤ mi →
      env.envelopeResp = ReqOutcome.success r0 →
      r0.features.isEmpty = false →
      r0.exceededTransferLimit = true →
      env.metaResp = ReqOutcome.success d →
      d.error = none →
      d.supports_pagination = true →
      d.oid_field = some oid →
      (query_arcgis_layer env layer_name polygon cb gt false none true mi
        tt).2.results_incomplete = true ∧
      (query_arcgis_layer env layer_name polygon cb gt false none true mi
        tt).2.incomplete_reason = some ("max_iterations")) := by
  refine ⟨paginated_query_pages_le, paginated_query_all_exceeded, ?_⟩
  intro env layer_name polygon cb gt mi tt r0 d oid hp ht hmi henv hne hexc hmeta
    herrd hsup hoid
  obtain ⟨hpf, hstop, hfin⟩ := paginated_query_all_exceeded env mi tt hp ht hmi
  have hblock := paginationBlock_max_iterations env mi tt r0 d oid hexc hmeta herrd
    hsup hoid hstop
  unfold query_arcgis_layer
  rw [henv]
  constructor
  · show (processResponse env polygon cb gt true mi tt r0).results_incomplete = true
    unfold processResponse
    rw [if_neg (by rw [hne]; simp)]
    exact hblock.1
  · show (processResponse env polygon cb gt true mi tt r0).incomplete_reason =
      some ("max_iterations")
    unfold processResponse
    rw [if_neg (by rw [hne]; simp)]
    exact hblock.2

/-! ### Aggregation of clip statistics (src/geometry_input/clipping.py 457-497) -/

/-- The run summary built by `aggregate_clip_metadata`. -/
structure ClipSummary where
  total_features_clipped : ℕ
  total_lines_clipped : ℕ
  total_polygons_clipped : ℕ
  total_original_vertices : ℕ
  total_clipped_vertices : ℕ
  total_empty_removed : ℕ
  total_clip_failures : ℕ
  overall_vertex_reduction_percent : ℚ
deriving Repr, DecidableEq

/-- One iteration of the accumulation loop: entries without a clipping
record are skipped (a present clipping dictionary is never empty, so
Python's truthiness test is presence). -/
def aggStep (acc : ClipSummary) (meta : QMeta) : ClipSummary :=
  match meta.clipping with
  | some c =>
    { acc with
      total_features_clipped := acc.total_features_clipped + c.features_clipped
      total_lines_clipped := acc.total_lines_clipped + c.lines_clipped
      total_polygons_clipped := acc.total_polygons_clipped + c.polygons_clipped
      total_original_vertices := acc.total_original_vertices + c.original_vertex_count
      total_clipped_vertices := acc.total_clipped_vertices + c.clipped_vertex_count
      total_empty_removed := acc.total_empty_removed + c.empty_geometries_removed
      total_clip_failures := acc.total_clip_failures + c.clip_failures }
  | none => acc

/-- `aggregate_clip_metadata` from src/geometry_input/clipping.py: sum the
per-layer clipping statistics, then derive the overall reduction
percentage. -/
def aggregate_clip_metadata (layer_metadata_list : List QMeta) : ClipSummary :=
  let base := layer_metadata_list.foldl aggStep
    { total_features_clipped := 0, total_lines_clipped := 0
      total_polygons_clipped := 0, total_original_vertices := 0
      total_clipped_vertices := 0, total_empty_removed := 0
      total_clip_failures := 0, overall_vertex_reduction_percent := 0 }
  { base with overall_vertex_reduction_percent :=
      if 0 < base.total_original_vertices then
        round1 ((((base.total_original_vertices : ℚ) -
          (base.total_clipped_vertices : ℚ)) /
          (base.total_original_vertices : ℚ)) * 100)
      else 0 }

lemma aggStep_fold_spec (ms : List QMeta) :
    ∀ acc : ClipSummary,
      (ms.foldl aggStep acc).total_features_clipped =
        acc.total_features_clipped +
          ((ms.filterMap (fun m => m.clipping)).map (fun c => c.features_clipped)).sum ∧
      (ms.foldl aggStep acc).total_lines_clipped =
        acc.total_lines_clipped +
          ((ms.filterMap (fun m => m.clipping)).map (fun c => c.lines_clipped)).sum ∧
      (ms.foldl aggStep acc).total_polygons_clipped =
        acc.total_polygons_clipped +
          ((ms.filterMap (fun m => m.clipping)).map (fun c => c.polygons_clipped)).sum ∧
      (ms.foldl aggStep acc).total_original_vertices =
        acc.total_original_vertices +
          ((ms.filterMap (fun m => m.clipping)).map (fun c => c.original_vertex_count)).sum ∧
      (ms.foldl aggStep acc).total_clipped_vertices =
        acc.total_clipped_vertices +
          ((ms.filterMap (fun m => m.clipping)).map (fun c => c.clipped_vertex_count)).sum ∧
      (ms.foldl aggStep acc).total_empty_removed =
        acc.total_empty_removed +
          ((ms.filterMap (fun m => m.clipping)).map (fun c => c.empty_geometries_removed)).sum ∧
      (ms.foldl aggStep acc).total_clip_failures =
        acc.total_clip_failures +
          ((ms.filterMap (fun m => m.clipping)).map (fun c => c.clip_failures)).sum ∧
      (ms.foldl aggStep acc).overall_vertex_reduction_percent =
        acc.overall_vertex_reduction_percent := by
  induction ms with
  | nil =>
    intro acc
    simp
  | cons m t ih =>
    intro acc
    rcases hc : m.clipping with _ | c
    · have hstep : aggStep acc m = acc := by
        unfold aggStep
        rw [hc]
      simp only [List.foldl_cons, List.filterMap_cons, hc, hstep]
      exact ih acc
    · have hstep : aggStep acc m = ClipSummary.mk
        (acc.total_features_clipped + c.features_clipped)
        (acc.total_lines_clipped + c.lines_clipped)
        (acc.total_polygons_clipped + c.polygons_clipped)
        (acc.total_original_vertices + c.original_vertex_count)
        (acc.total_clipped_vertices + c.clipped_vertex_count)
        (acc.total_empty_removed + c.empty_geometries_removed)
        (acc.total_clip_failures + c.clip_failures)
        acc.overall_vertex_reduction_percent := by
        unfold aggStep
        rw [hc]
      obtain ⟨h1, h2, h3, h4, h5, h6, h7, h8⟩ := ih (aggStep acc m)
      rw [hstep] at h1 h2 h3 h4 h5 h6 h7 h8
      simp only [List.foldl_cons, List.filterMap_cons, hc, List.map_cons,
        List.sum_cons, hstep] at h1 h2 h3 h4 h5 h6 h7 h8 ⊢
      refine ⟨?_, ?_, ?_, ?_, ?_, ?_, ?_, ?_⟩
      · rw [h1]; omega
      · rw [h2]; omega
      · rw [h3]; omega
      · rw [h4]; omega
      · rw [h5]; omega
      · rw [h6]; omega
      · rw [h7]; omega
      · rw [h8]

/-- Closed form of the aggregation in terms of sums over the layers that
carry clipping statistics. -/
def summaryOfSums (a b c d e f g : ℕ) : ClipSummary :=
  { total_features_clipped := a, total_lines_clipped := b
    total_polygons_clipped := c, total_original_vertices := d
    total_clipped_vertices := e, total_empty_removed := f
    total_clip_failures := g
    overall_vertex_reduction_percent :=
      if 0 < d then round1 ((((d : ℚ) - (e : ℚ)) / (d : ℚ)) * 100) else 0 }

lemma aggregate_eq_summaryOfSums (ms : List QMeta) :
    aggregate_clip_metadata ms = summaryOfSums
      (((ms.filterMap (fun m => m.clipping)).map (fun c => c.features_clipped)).sum)
      (((ms.filterMap (fun m => m.clipping)).map (fun c => c.lines_clipped)).sum)
      (((ms.filterMap (fun m => m.clipping)).map (fun c => c.polygons_clipped)).sum)
      (((ms.filterMap (fun m => m.clipping)).map (fun c => c.original_vertex_count)).sum)
      (((ms.filterMap (fun m => m.clipping)).map (fun c => c.clipped_vertex_count)).sum)
      (((ms.filterMap (fun m => m.clipping)).map (fun c => c.empty_geometries_removed)).sum)
      (((ms.filterMap (fun m => m.clipping)).map (fun c => c.clip_failures)).sum) := by
  obtain ⟨h1, h2, h3, h4, h5, h6, h7, h8⟩ := aggStep_fold_spec ms
    { total_features_clipped := 0, total_lines_clipped := 0
      total_polygons_clipped := 0, total_original_vertices := 0
      total_clipped_vertices := 0, total_empty_removed := 0
      total_clip_failures := 0, overall_vertex_reduction_percent := 0 }
  simp only [Nat.zero_add] at h1 h2 h3 h4 h5 h6 h7
  simp only [aggregate_clip_metadata, summaryOfSums]
  rw [h1, h2, h3, h4, h5, h6, h7]

/-- Claim C9: the aggregation is purely additive — each `total_*` field is
the sum of the per-layer clipping values over exactly the entries carrying
a clipping record — and permutation-invariant: reordering the layer
metadata leaves the whole summary unchanged. -/
theorem C9_aggregate_additive_permutation_invariant :
    (∀ ms : List QMeta,
      (aggregate_clip_metadata ms).total_features_clipped =
        ((ms.filterMap (fun m => m.clipping)).map (fun c => c.features_clipped)).sum ∧
      (aggregate_clip_metadata ms).total_lines_clipped =
        ((ms.filterMap (fun m => m.clipping)).map (fun c => c.lines_clipped)).sum ∧
      (aggregate_clip_metadata ms).total_polygons_clipped =
        ((ms.filterMap (fun m => m.clipping)).map (fun c => c.polygons_clipped)).sum ∧
      (aggregate_clip_metadata ms).total_original_vertices =
        ((ms.filterMap (fun m => m.clipping)).map (fun c => c.original_vertex_count)).sum ∧
      (aggregate_clip_metadata ms).total_clipped_vertices =
        ((ms.filterMap (fun m => m.clipping)).map (fun c => c.clipped_vertex_count)).sum ∧
      (aggregate_clip_metadata ms).total_empty_removed =
        ((ms.filterMap (fun m => m.clipping)).map (fun c => c.empty_geometries_removed)).sum ∧
      (aggregate_clip_metadata ms).total_clip_failures =
        ((ms.filterMap (fun m => m.clipping)).map (fun c => c.clip_failures)).sum) ∧
    (∀ ms₁ ms₂ : List QMeta, ms₁.Perm ms₂ →
      aggregate_clip_metadata ms₁ = aggregate_clip_metadata ms₂) := by
  constructor
  · intro ms
    rw [aggregate_eq_summaryOfSums ms]
    exact ⟨rfl, rfl, rfl, rfl, rfl, rfl, rfl⟩
  · intro ms₁ ms₂ hperm
    rw [aggregate_eq_summaryOfSums ms₁, aggregate_eq_summaryOfSums ms₂]
    have hs : ∀ (g : ClipMeta → ℕ),
        (((ms₁.filterMap (fun m => m.clipping)).map g).sum) =
          (((ms₂.filterMap (fun m => m.clipping)).map g).sum) := by
      intro g
      exact List.Perm.sum_eq (List.Perm.map g (List.Perm.filterMap _ hperm))
    rw [hs, hs, hs, hs, hs, hs, hs]

/-! ### process_all_layers: clip-boundary degradation (claim C10) -/

/-- Clip-boundary resolution of `process_all_layers`
(src/core/layer_processor.py lines 74-89): when clipping is enabled, a
raising `create_clip_boundary` is caught, a warning logged, and the
boundary set to `None`. -/
def resolve_clip_boundary (clip_enabled : Bool)
    (clipBuilder : Except String Geom) : Option Geom :=
  if clip_enabled then
    match clipBuilder with
    | .ok b => some b
    | .error _ => none
  else none

/-- What `process_all_layers` returns (results frame map, metadata map, the
aggregated clip statistics of the summary block, and the boundary). -/
structure AllLayersOut where
  results : List (String × List Feature)
  metadata : List (String × QMeta)
  clip_summary_stats : Option ClipSummary
  clip_boundary : Option Geom

/-- `process_all_layers` from src/core/layer_processor.py: build the clip
boundary with graceful degradation, query every enabled layer with the
shared read-only inputs, and aggregate clip statistics when clipping is
active.  The state filter and the strategy decision are modelled separately
(`select_query_strategy`); their outputs arrive as the already-filtered
layer list and the `use_polygon_query` / `esri_polygon_json` pair. -/
def process_all_layers (envOf : LayerCfg → Env) (polygon : Geom)
    (clip_enabled : Bool) (clipBuilder : Except String Geom)
    (use_polygon_query : Bool) (esri_polygon_json : Option String)
    (pagination_enabled : Bool) (mi : ℕ) (tt : ℚ) (cfgs : List LayerCfg) :
    AllLayersOut :=
  { results := (processLayersLoop (fun c =>
      query_arcgis_layer (envOf c) c.name polygon
        (resolve_clip_boundary clip_enabled clipBuilder) c.geometry_type
        use_polygon_query esri_polygon_json pagination_enabled mi tt) cfgs).1
    metadata := (processLayersLoop (fun c =>
      query_arcgis_layer (envOf c) c.name polygon
        (resolve_clip_boundary clip_enabled clipBuilder) c.geometry_type
        use_polygon_query esri_polygon_json pagination_enabled mi tt) cfgs).2
    clip_summary_stats :=
      if clip_enabled && (resolve_clip_boundary clip_enabled clipBuilder).isSome then
        some (aggregate_clip_metadata ((processLayersLoop (fun c =>
          query_arcgis_layer (envOf c) c.name polygon
            (resolve_clip_boundary clip_enabled clipBuilder) c.geometry_type
            use_polygon_query esri_polygon_json pagination_enabled mi tt)
          cfgs).2.map Prod.snd))
      else none
    clip_boundary := resolve_clip_boundary clip_enabled clipBuilder }

lemma processLayersLoop_names (q : LayerCfg → Option (List Feature) × QMeta)
    (cfgs : List LayerCfg) :
    ((processLayersLoop q cfgs).2.map Prod.fst) =
      (cfgs.filter (fun c => c.enabled)).map LayerCfg.name := by
  induction cfgs with
  | nil => rfl
  | cons c rest ih =>
    by_cases hen : c.enabled
    · simp [processLayersLoop, List.filter_cons, hen, ih]
    · simp [processLayersLoop, List.filter_cons, hen, ih]

lemma processLayersLoop_meta_mem (q : LayerCfg → Option (List Feature) × QMeta)
    (cfgs : List LayerCfg) :
    ∀ p ∈ (processLayersLoop q cfgs).2, ∃ c ∈ cfgs, p = (c.name, (q c).2) := by
  induction cfgs with
  | nil =>
    intro p hp
    simp [processLayersLoop] at hp
  | cons c rest ih =>
    intro p hp
    by_cases hen : c.enabled
    · rw [processLayersLoop, if_pos hen] at hp
      rcases List.mem_cons.mp hp with hph | hpt
      · exact ⟨c, List.mem_cons_self c rest, hph⟩
      · obtain ⟨c2, hc2, he⟩ := ih p hpt
        exact ⟨c2, List.mem_cons_of_mem c hc2, he⟩
    · rw [processLayersLoop, if_neg hen] at hp
      obtain ⟨c2, hc2, he⟩ := ih p hp
      exact ⟨c2, List.mem_cons_of_mem c hc2, he⟩

lemma processResponse_clipping_none (env : Env) (polygon : Geom)
    (gt : Option String) (pe : Bool) (mi : ℕ) (tt : ℚ) (r : QueryResponse) :
    (processResponse env polygon none gt pe mi tt r).clipping = none := by
  unfold processResponse
  split
  · rfl
  · rfl

lemma query_clipping_none (env : Env) (layer_name : String) (polygon : Geom)
    (gt : Option String) (upq : Bool) (esri : Option String) (pe : Bool)
    (mi : ℕ) (tt : ℚ) :
    (query_arcgis_layer env layer_name polygon none gt upq esri pe mi
      tt).2.clipping = none := by
  unfold query_arcgis_layer
  split
  · next r fb hpa =>
    exact processResponse_clipping_none env polygon gt pe mi tt r
  · split
    · next r henv =>
      exact processResponse_clipping_none env polygon gt pe mi tt r
    · rfl
    · rfl

lemma clipStage_some_guard (cb : Option Geom) (gt : Option String)
    (l : List Feature) (h : ((clipStage cb gt l).2).isSome = true) :
    cb.isSome = true ∧ (gt = some ("line") ∨ gt = some ("polygon")) := by
  unfold clipStage at h
  split at h
  · split at h
    · next hcond =>
      exact ⟨rfl, hcond.1⟩
    · simp at h
  · simp at h

lemma processResponse_clipping_guard (env : Env) (polygon : Geom)
    (cb : Option Geom) (gt : Option String) (pe : Bool) (mi : ℕ) (tt : ℚ)
    (r : QueryResponse)
    (h : ((processResponse env polygon cb gt pe mi tt r).clipping).isSome = true) :
    cb.isSome = true ∧ (gt = some ("line") ∨ gt = some ("polygon")) := by
  unfold processResponse at h
  split at h
  · simp at h
  · exact clipStage_some_guard cb gt _ h

/-- Claim C10: when building the clip boundary raises, `process_all_layers`
continues with `clip_boundary = None` and still queries every enabled
layer; every layer metadata then carries no clipping record; with a `None`
boundary a layer query performs only client-side intersection filtering;
and in general clipping runs only when the boundary is present and the
layer is a line or polygon layer. -/
theorem C10_clip_boundary_failure_degrades (envOf : LayerCfg → Env)
    (polygon : Geom) (e : String) (upq : Bool) (esri : Option String)
    (pe : Bool) (mi : ℕ) (tt : ℚ) (cfgs : List LayerCfg) :
    (process_all_layers envOf polygon true (Except.error e) upq esri pe mi tt
      cfgs).clip_boundary = none ∧
    ((process_all_layers envOf polygon true (Except.error e) upq esri pe mi tt
      cfgs).metadata.map Prod.fst) =
      (cfgs.filter (fun c => c.enabled)).map LayerCfg.name ∧
    (∀ p ∈ (process_all_layers envOf polygon true (Except.error e) upq esri pe mi
        tt cfgs).metadata, p.2.clipping = none) ∧
    (∀ (env : Env) (gt : Option String) (r : QueryResponse),
      r.features.isEmpty = false →
      (processResponse env polygon none gt pe mi tt r).clipping = none ∧
      (processResponse env polygon none gt pe mi tt r).feats =
        some (clientFilter polygon (servedFeatures env pe mi tt r))) ∧
    (∀ (env : Env) (layer_name : String) (cb : Option Geom) (gt : Option String)
       (upq2 : Bool) (esri2 : Option String),
      ((query_arcgis_layer env layer_name polygon cb gt upq2 esri2 pe mi
        tt).2.clipping).isSome = true →
      cb.isSome = true ∧ (gt = some ("line") ∨ gt = some ("polygon"))) := by
  have hb : resolve_clip_boundary true (Except.error e) = none := rfl
  refine ⟨rfl, ?_, ?_, ?_, ?_⟩
  · exact processLayersLoop_names _ cfgs
  · intro p hp
    obtain ⟨c, hc, hpe⟩ := processLayersLoop_meta_mem _ cfgs p hp
    rw [hpe]
    show (query_arcgis_layer (envOf c) c.name polygon
      (resolve_clip_boundary true (Except.error e)) c.geometry_type upq esri pe mi
      tt).2.clipping = none
    rw [hb]
    exact query_clipping_none (envOf c) c.name polygon c.geometry_type upq esri pe
      mi tt
  · intro env gt r hne
    refine ⟨processResponse_clipping_none env polygon gt pe mi tt r, ?_⟩
    unfold processResponse
    rw [if_neg (by rw [hne]; simp)]
    rfl
  · intro env layer_name cb gt upq2 esri2 h
    revert h
    unfold query_arcgis_layer
    split
    · next r fb hpa =>
      intro h
      exact processResponse_clipping_guard env polygon cb gt pe mi tt r h
    · split
      · next r henv =>
        intro h
        exact processResponse_clipping_guard env polygon cb gt pe mi tt r h
      · intro h
        simp [errMeta] at h
      · intro h
        simp [errMeta] at h

/-! ### src/geometry_input: load_input.py, dissolve.py, buffering.py, pipeline.py

`load_geometry_file` is file IO and is not embedded: `process_input_geometry`
takes the loaded frame directly.  Reprojection (`to_crs`), the
projected-CRS buffer chain of `buffer_geometry_feet`, shapely `simplify`,
and the cosine-based area figure are external operations modelled by the
oracles of `GeoEnv`. -/

/-- The type-normalization table of `detect_geometry_type`
(src/geometry_input/load_input.py lines 95-106). -/
def normKind : ShType → String
  | .point => "point"
  | .multipoint => "point"
  | .linestring => "line"
  | .multilinestring => "line"
  | .polygon => "polygon"
  | .multipolygon => "polygon"
  | .geometrycollection => "unknown"

/-- `detect_geometry_type` from src/geometry_input/load_input.py: normalize
every feature's type; more than one distinct kind means `mixed`. -/
def detect_geometry_type (gs : List Geom) : String :=
  if 1 < ((gs.map (fun g => normKind g.shType)).dedup).length then "mixed"
  else ((gs.map (fun g => normKind g.shType)).dedup).headD "unknown"

/-- The loaded frame handed to the pipeline: the declared CRS (EPSG code,
`none` models a missing CRS) and the rows (`none` models a null
geometry). -/
structure InputGdf where
  crs : Option ℕ
  feats : List (Option Geom)
deriving Repr, DecidableEq

def supported_types : List ShType :=
  [ShType.point, ShType.multipoint, ShType.linestring, ShType.multilinestring,
   ShType.polygon, ShType.multipolygon]

/-- `validate_input_geometry` from src/geometry_input/load_input.py (the
geometry-column check is structural in this model). -/
def validate_input_geometry (gdf : InputGdf) : Bool × String :=
  if gdf.feats.isEmpty then (false, "GeoDataFrame contains no features")
  else if gdf.crs.isNone then (false, "GeoDataFrame has no CRS defined")
  else if gdf.feats.any (fun g => g.isNone) then
    (false, "GeoDataFrame contains null geometries")
  else if (gdf.feats.filterMap id).any
      (fun g => !(supported_types.contains g.shType)) then
    (false, "Unsupported geometry types")
  else (true, "")

/-- shapely type of a `unary_union` result in the model. -/
def unionKind (gs : List Geom) : ShType :=
  if gs.all (fun g => normKind g.shType = "point") then ShType.multipoint
  else if gs.all (fun g => normKind g.shType = "line") then ShType.multilinestring
  else if gs.all (fun g => normKind g.shType = "polygon") then ShType.multipolygon
  else ShType.geometrycollection

/-- shapely `unary_union`: one geometry holding every sample point; the
union of valid parts is valid, and its degeneracy is the worst of the
parts. -/
def unary_union (gs : List Geom) : Geom :=
  { shType := unionKind gs
    pts := (gs.map Geom.pts).flatten
    valid := gs.all Geom.valid
    hardness := (gs.map Geom.hardness).foldr max 0 }

/-- `dissolve_geometries` from src/geometry_input/dissolve.py: a single
feature passes through, several are unioned. -/
def dissolve_geometries (gs : List Geom) : Geom :=
  match gs with
  | [g] => g
  | _ => unary_union gs

/-- `repair_invalid_geometry` from src/geometry_input/dissolve.py:
valid geometry passes through, else `make_valid`, else `buffer(0)`, else
a `ValueError`. -/
def repair_invalid_geometry (g : Geom) : Except String Geom :=
  if g.valid then .ok g
  else
    match makeValidE g with
    | .ok r => .ok r
    | .error _ =>
      match buffer0E g with
      | .ok r => .ok r
      | .error _ => .error ("Cannot repair invalid geometry")

/-- External operations of the normalizer: the projected buffer chain of
`buffer_geometry_feet` (CRS selection, reprojection, metric buffer,
reprojection back — any step may raise), `to_crs` reprojection to
EPSG:4326, shapely `simplify`, and the latitude-scaled area figure of
`calculate_buffer_area`. -/
structure GeoEnv where
  bufResult : Geom → ℚ → Except String Geom
  toCrs4326 : ℕ → Geom → Geom
  simplifyFn : Geom → Geom
  areaSqMi : Geom → ℚ

/-- `buffer_geometry_feet` from src/geometry_input/buffering.py: a
non-positive distance raises; the projected buffering chain is the
environment's `bufResult`. -/
def buffer_geometry_feet (env : GeoEnv) (g : Geom) (buffer_feet : ℚ) :
    Except String Geom :=
  if buffer_feet ≤ 0 then .error ("Buffer distance must be positive")
  else env.bufResult g buffer_feet

/-- `calculate_buffer_area` from src/geometry_input/buffering.py, reduced
to its square-mile figure. -/
def calculate_buffer_area (env : GeoEnv) (g : Geom) : ℚ :=
  env.areaSqMi g

/-- `validate_buffer_distance` from src/geometry_input/buffering.py.  Its
caller wraps it in try/except and ignores the outcome (advisory). -/
def validate_buffer_distance (buffer_feet : ℚ) (geom_type : String) :
    Except String Bool :=
  if geom_type = "polygon" then
    .error ("Buffer should not be applied to polygon geometries")
  else if buffer_feet < 1 then .error ("Buffer distance too small")
  else .ok true

/-- `simplify_geometry` from src/geometry_input/dissolve.py: shapely
simplification (via the oracle) only above 10000 vertices. -/
def simplify_geometry (env : GeoEnv) (g : Geom) : Geom :=
  if 10000 < count_vertices g then env.simplifyFn g else g

/-- `_separate_geometry_types` from src/geometry_input/pipeline.py: split
rows by normalized kind (geometry collections carry no members in the
model and are rejected upstream by validation). -/
def separate_geometry_types (gs : List Geom) :
    List Geom × List Geom × List Geom :=
  (gs.filter (fun g => normKind g.shType = "point"),
   gs.filter (fun g => normKind g.shType = "line"),
   gs.filter (fun g => normKind g.shType = "polygon"))

/-- A `GeometryCollection` wrapping the given members' points. -/
def mkGeometryCollection (gs : List Geom) : Geom :=
  { shType := ShType.geometrycollection
    pts := (gs.map Geom.pts).flatten
    valid := gs.all Geom.valid
    hardness := (gs.map Geom.hardness).foldr max 0 }

/-- A processed single-row frame (the `GeoDataFrame([{geometry}], crs=...)`
constructions of pipeline.py). -/
structure GeoFrame where
  crs : ℕ
  feats : List Geom
deriving Repr, DecidableEq

/-- The polygon part of `_process_mixed_geometries`: union and repair, no
buffering. -/
def mixedPolys (polys : List Geom) : Except String (Option Geom) :=
  if polys.isEmpty then .ok none
  else
    match repair_invalid_geometry (unary_union polys) with
    | .error e => .error e
    | .ok pu => .ok (some pu)

/-- The point (or line) part of `_process_mixed_geometries`: union, repair,
preserve the pre-buffer union, then buffer.  Returns
`(pre-buffer union, buffered)`. -/
def mixedPart (env : GeoEnv) (d : ℚ) (part : List Geom) :
    Except String (Option (Geom × Geom)) :=
  if part.isEmpty then .ok none
  else
    match repair_invalid_geometry (unary_union part) with
    | .error e => .error e
    | .ok u =>
      match buffer_geometry_feet env u d with
      | .error e => .error e
      | .ok b => .ok (some (u, b))

/-- The tail of `_process_mixed_geometries`
(src/geometry_input/pipeline.py lines 143-167): combine bare polygons with
the buffered points and lines, repair, and preserve the pre-buffer
point/line unions for display (a collection when both exist). -/
def mixedAssemble (env : GeoEnv) (polyUnion : Option Geom)
    (pointPart linePart : Option (Geom × Geom)) :
    Except String (Geom × ℚ × Bool × Option GeoFrame) :=
  if (polyUnion.toList ++ (pointPart.toList.map Prod.snd) ++
      (linePart.toList.map Prod.snd)).isEmpty then
    .error ("No valid geometries found after processing mixed types")
  else
    match repair_invalid_geometry (unary_union (polyUnion.toList ++
        (pointPart.toList.map Prod.snd) ++ (linePart.toList.map Prod.snd))) with
    | .error e => .error e
    | .ok unified =>
      .ok (unified,
        (if pointPart.isSome || linePart.isSome then
          calculate_buffer_area env unified
        else 0),
        pointPart.isSome || linePart.isSome,
        (match (pointPart.toList.map Prod.fst) ++ (linePart.toList.map Prod.fst) with
         | [] => none
         | [g] => some { crs := 4326, feats := [g] }
         | gs2 => some { crs := 4326, feats := [mkGeometryCollection gs2] }))

/-- The feature list `_process_mixed_geometries` works on: the input rows,
reprojected to EPSG:4326 when the declared CRS differs. -/
def mixedSource (env : GeoEnv) (crs : ℕ) (gs0 : List Geom) : List Geom :=
  if crs = 4326 then gs0 else gs0.map (env.toCrs4326 crs)

/-- A single geometry reprojected to EPSG:4326 when needed (the
`to_crs` conversions of the single-kind path). -/
def toWgs84 (env : GeoEnv) (crs : ℕ) (g : Geom) : Geom :=
  if crs = 4326 then g else env.toCrs4326 crs g

/-- `_process_mixed_geometries` from src/geometry_input/pipeline.py. -/
def process_mixed_geometries (env : GeoEnv) (crs : ℕ) (gs0 : List Geom)
    (buffer_distance_feet : ℚ) :
    Except String (Geom × ℚ × Bool × Option GeoFrame) :=
  match mixedPolys (separate_geometry_types (mixedSource env crs gs0)).2.2 with
  | .error e => .error e
  | .ok polyUnion =>
    match mixedPart env buffer_distance_feet
        (separate_geometry_types (mixedSource env crs gs0)).1 with
    | .error e => .error e
    | .ok pointPart =>
      match mixedPart env buffer_distance_feet
          (separate_geometry_types (mixedSource env crs gs0)).2.1 with
      | .error e => .error e
      | .ok linePart => mixedAssemble env polyUnion pointPart linePart

/-- Pipeline metadata (fields that only echo the input file — name, bounds,
CRS string, detailed type list — are omitted). -/
structure PipeMeta where
  feature_count : ℕ
  geometry_type : String
  buffer_applied : Bool
  buffer_distance_feet : Option ℚ
  buffer_area : Option ℚ
  mixed_geometry_processing : Bool
  final_crs : ℕ
  final_geometry_type : ShType
  is_valid : Bool
deriving Repr, DecidableEq

/-- The buffered branch of the single-kind path
(src/geometry_input/pipeline.py lines 275-311 and the final steps 338-351):
convert the CRS, preserve the pre-buffer geometry for display, buffer,
apply the final repair, and build the output frame.  The advisory
`validate_buffer_distance` call is wrapped in try/except by the source and
has no effect. -/
def pipeSingleBuffered (env : GeoEnv) (gs : List Geom) (geom_type : String)
    (crs : ℕ) (d : ℚ) (dissolved2 : Geom) :
    Except String (GeoFrame × PipeMeta × Option GeoFrame) :=
  match buffer_geometry_feet env (toWgs84 env crs dissolved2) d with
  | .error e => .error e
  | .ok buffered =>
    match repair_invalid_geometry buffered with
    | .error e => .error e
    | .ok final =>
      .ok ({ crs := 4326, feats := [final] },
        { feature_count := gs.length, geometry_type := geom_type
          buffer_applied := true, buffer_distance_feet := some d
          buffer_area := some (calculate_buffer_area env buffered)
          mixed_geometry_processing := false, final_crs := 4326
          final_geometry_type := final.shType, is_valid := final.valid },
        some { crs := 4326, feats := [toWgs84 env crs dissolved2] })

/-- The unbuffered polygon branch (src/geometry_input/pipeline.py lines
312-336 and the final steps): compute the area figure, convert the CRS,
apply the final repair, and build the output frame. -/
def pipeSinglePolygon (env : GeoEnv) (gs : List Geom) (geom_type : String)
    (crs : ℕ) (dissolved2 : Geom) :
    Except String (GeoFrame × PipeMeta × Option GeoFrame) :=
  match repair_invalid_geometry (toWgs84 env crs dissolved2) with
  | .error e => .error e
  | .ok final =>
    .ok ({ crs := 4326, feats := [final] },
      { feature_count := gs.length, geometry_type := geom_type
        buffer_applied := false, buffer_distance_feet := none
        buffer_area := some (calculate_buffer_area env (toWgs84 env crs dissolved2))
        mixed_geometry_processing := false, final_crs := 4326
        final_geometry_type := final.shType, is_valid := final.valid },
      none)

/-- The single-kind path after dissolve, repair and optional
simplification: decide whether buffering is needed (declared kind or the
actual post-dissolve shapely type). -/
def pipeSingleAfterDissolve (env : GeoEnv) (gs : List Geom)
    (geom_type : String) (crs : ℕ) (d : ℚ) (dissolved2 : Geom) :
    Except String (GeoFrame × PipeMeta × Option GeoFrame) :=
  if (geom_type = "point" ∨ geom_type = "line") ∨
      (dissolved2.shType = ShType.point ∨ dissolved2.shType = ShType.multipoint ∨
       dissolved2.shType = ShType.linestring ∨
       dissolved2.shType = ShType.multilinestring) then
    pipeSingleBuffered env gs geom_type crs d dissolved2
  else
    pipeSinglePolygon env gs geom_type crs dissolved2

/-- The mixed path of `process_input_geometry` followed by the shared final
repair and output construction (src/geometry_input/pipeline.py lines
236-249 and 338-351). -/
def pipeMixed (env : GeoEnv) (gs : List Geom) (crs : ℕ) (d : ℚ) :
    Except String (GeoFrame × PipeMeta × Option GeoFrame) :=
  match process_mixed_geometries env crs gs d with
  | .error e => .error e
  | .ok r =>
    match repair_invalid_geometry r.1 with
    | .error e => .error e
    | .ok final =>
      .ok ({ crs := 4326, feats := [final] },
        { feature_count := gs.length, geometry_type := "mixed"
          buffer_applied := r.2.2.1
          buffer_distance_feet := if r.2.2.1 then some d else none
          buffer_area := if r.2.2.1 then some r.2.1 else none
          mixed_geometry_processing := r.2.2.1
          final_crs := 4326, final_geometry_type := final.shType
          is_valid := final.valid },
        r.2.2.2)

/-- `process_input_geometry` from src/geometry_input/pipeline.py, taking
the already-loaded frame: validate, detect the kind, then follow the mixed
or single-kind path; every path ends in the final repair before the output
frame is built in EPSG:4326. -/
def process_input_geometry (env : GeoEnv) (gdf : InputGdf) (d : ℚ)
    (apply_simplification : Bool) :
    Except String (GeoFrame × PipeMeta × Option GeoFrame) :=
  if (validate_input_geometry gdf).1 = false then
    .error ("Input validation failed: " ++ (validate_input_geometry gdf).2)
  else if detect_geometry_type (gdf.feats.filterMap id) = "mixed" then
    pipeMixed env (gdf.feats.filterMap id) (gdf.crs.getD 0) d
  else
    match repair_invalid_geometry
        (dissolve_geometries (gdf.feats.filterMap id)) with
    | .error e => .error e
    | .ok dissolved1 =>
      pipeSingleAfterDissolve env (gdf.feats.filterMap id)
        (detect_geometry_type (gdf.feats.filterMap id)) (gdf.crs.getD 0) d
        (if apply_simplification then simplify_geometry env dissolved1
         else dissolved1)

/-! ### Normalization invariants (claims C6, C7) -/

lemma repair_invalid_geometry_ok {g r : Geom}
    (h : repair_invalid_geometry g = Except.ok r) :
    r.valid = true ∧ r.pts = g.pts ∧ r.shType = g.shType := by
  unfold repair_invalid_geometry at h
  split at h
  · next hv =>
    injection h with h1
    subst h1
    exact ⟨hv, rfl, rfl⟩
  · split at h
    · next r0 hmv =>
      injection h with h1
      rw [← h1, makeValidE_ok hmv]
      exact ⟨rfl, rfl, rfl⟩
    · split at h
      · next r0 hb0 =>
        injection h with h1
        rw [← h1, buffer0E_ok hb0]
        exact ⟨rfl, rfl, rfl⟩
      · exact Except.noConfusion h

lemma pipeSingleBuffered_ok {env : GeoEnv} {gs : List Geom}
    {geom_type : String} {crs : ℕ} {d : ℚ} {dissolved2 : Geom}
    {out : GeoFrame} {meta : PipeMeta} {og : Option GeoFrame}
    (h : pipeSingleBuffered env gs geom_type crs d dissolved2 =
      Except.ok (out, meta, og)) :
    out.feats.length = 1 ∧ out.crs = 4326 ∧ (∀ g ∈ out.feats, g.valid = true) ∧
    og.isSome = true ∧ meta.buffer_applied = true ∧
    meta.geometry_type = geom_type := by
  unfold pipeSingleBuffered at h
  split at h
  · exact Except.noConfusion h
  · split at h
    · exact Except.noConfusion h
    · next final hrep =>
      injection h with h1
      simp only [Prod.mk.injEq] at h1
      obtain ⟨hA, hB, hC⟩ := h1
      subst hA
      subst hB
      subst hC
      refine ⟨rfl, rfl, ?_, rfl, rfl, rfl⟩
      intro g hg
      rcases List.mem_singleton.mp hg with hgf
      rw [hgf]
      exact (repair_invalid_geometry_ok hrep).1

lemma pipeSinglePolygon_ok {env : GeoEnv} {gs : List Geom}
    {geom_type : String} {crs : ℕ} {dissolved2 : Geom}
    {out : GeoFrame} {meta : PipeMeta} {og : Option GeoFrame}
    (h : pipeSinglePolygon env gs geom_type crs dissolved2 =
      Except.ok (out, meta, og)) :
    out.feats.length = 1 ∧ out.crs = 4326 ∧ (∀ g ∈ out.feats, g.valid = true) ∧
    og = none ∧ meta.buffer_applied = false ∧
    meta.geometry_type = geom_type := by
  unfold pipeSinglePolygon at h
  split at h
  · exact Except.noConfusion h
  · next final hrep =>
    injection h with h1
    simp only [Prod.mk.injEq] at h1
    obtain ⟨hA, hB, hC⟩ := h1
    subst hA
    subst hB
    subst hC
    refine ⟨rfl, rfl, ?_, rfl, rfl, rfl⟩
    intro g hg
    rcases List.mem_singleton.mp hg with hgf
    rw [hgf]
    exact (repair_invalid_geometry_ok hrep).1

lemma mixedPart_ok {env : GeoEnv} {d : ℚ} {part : List Geom}
    {res : Option (Geom × Geom)} (h : mixedPart env d part = Except.ok res) :
    res.isSome = !part.isEmpty ∧
    (∀ u b, res = some (u, b) → ∀ p ∈ u.pts, ∃ g0 ∈ part, p ∈ g0.pts) := by
  unfold mixedPart at h
  split at h
  · next hemp =>
    injection h with h1
    subst h1
    refine ⟨by simp [hemp], ?_⟩
    intro u b hub
    exact absurd hub (by simp)
  · next hemp =>
    split at h
    · exact Except.noConfusion h
    · next u0 hrep =>
      split at h
      · exact Except.noConfusion h
      · next b0 hbuf =>
        injection h with h1
        subst h1
        refine ⟨by simp [hemp], ?_⟩
        intro u b hub p hp
        have huu : u = u0 := by
          have := Option.some.inj hub
          rw [Prod.mk.injEq] at this
          exact this.1.symm
        rw [huu, (repair_invalid_geometry_ok hrep).2.1] at hp
        have hfl : (unary_union part).pts = (part.map Geom.pts).flatten := rfl
        rw [hfl, List.mem_flatten] at hp
        obtain ⟨l, hl, hpl⟩ := hp
        rw [List.mem_map] at hl
        obtain ⟨g0, hg0, hge⟩ := hl
        exact ⟨g0, hg0, by rw [hge]; exact hpl⟩

lemma mixedAssemble_ok {env : GeoEnv} {polyUnion : Option Geom}
    {pointPart linePart : Option (Geom × Geom)}
    {r : Geom × ℚ × Bool × Option GeoFrame}
    (h : mixedAssemble env polyUnion pointPart linePart = Except.ok r) :
    r.2.2.1 = (pointPart.isSome || linePart.isSome) ∧
    r.2.2.2.isSome = (pointPart.isSome || linePart.isSome) ∧
    (∀ dg, r.2.2.2 = some dg → ∀ g ∈ dg.feats, ∀ p ∈ g.pts,
      (∃ pp, pointPart = some pp ∧ p ∈ pp.1.pts) ∨
      (∃ lp, linePart = some lp ∧ p ∈ lp.1.pts)) := by
  unfold mixedAssemble at h
  split at h
  · exact Except.noConfusion h
  · split at h
    · exact Except.noConfusion h
    · next unified hrep =>
      injection h with h1
      subst h1
      refine ⟨rfl, ?_, ?_⟩
      · rcases pointPart with _ | pp <;> rcases linePart with _ | lp <;> simp
      · intro dg hdg g hg p hp
        rcases pointPart with _ | pp <;> rcases linePart with _ | lp
        · simp at hdg
        · simp only [Option.toList, List.map_cons, List.map_nil,
            List.nil_append] at hdg
          have hdge := Option.some.inj hdg
          rw [← hdge] at hg
          rcases List.mem_singleton.mp hg with hgf
          rw [hgf] at hp
          exact Or.inr ⟨lp, rfl, hp⟩
        · simp only [Option.toList, List.map_cons, List.map_nil,
            List.append_nil] at hdg
          have hdge := Option.some.inj hdg
          rw [← hdge] at hg
          rcases List.mem_singleton.mp hg with hgf
          rw [hgf] at hp
          exact Or.inl ⟨pp, rfl, hp⟩
        · simp only [Option.toList, List.map_cons, List.map_nil,
            List.cons_append, List.nil_append] at hdg
          have hdge := Option.some.inj hdg
          rw [← hdge] at hg
          rcases List.mem_singleton.mp hg with hgf
          rw [hgf] at hp
          have hpts : (mkGeometryCollection [pp.1, lp.1]).pts =
              pp.1.pts ++ (lp.1.pts ++ []) := rfl
          rw [hpts] at hp
          rcases List.mem_append.mp hp with hp1 | hp2
          · exact Or.inl ⟨pp, rfl, hp1⟩
          · rw [List.append_nil] at hp2
            exact Or.inr ⟨lp, rfl, hp2⟩

lemma process_mixed_ok {env : GeoEnv} {crs : ℕ} {gs0 : List Geom} {d : ℚ}
    {r : Geom × ℚ × Bool × Option GeoFrame}
    (h : process_mixed_geometries env crs gs0 d = Except.ok r) :
    r.2.2.2.isSome = r.2.2.1 ∧
    (∀ dg, r.2.2.2 = some dg → ∀ g ∈ dg.feats, ∀ p ∈ g.pts,
      ∃ g0 ∈ mixedSource env crs gs0,
        (normKind g0.shType = "point" ∨ normKind g0.shType = "line") ∧
        p ∈ g0.pts) := by
  unfold process_mixed_geometries at h
  split at h
  · exact Except.noConfusion h
  · next polyUnion hpolys =>
    split at h
    · exact Except.noConfusion h
    · next pointPart hpoint =>
      split at h
      · exact Except.noConfusion h
      · next linePart hline =>
        obtain ⟨hflag, hsome, hmem⟩ := mixedAssemble_ok h
        obtain ⟨hpn, hpm⟩ := mixedPart_ok hpoint
        obtain ⟨hln, hlm⟩ := mixedPart_ok hline
        refine ⟨by rw [hsome, hflag], ?_⟩
        intro dg hdg g hg p hp
        rcases hmem dg hdg g hg p hp with ⟨pp, hppe, hppts⟩ | ⟨lp, hlpe, hlpts⟩
        · obtain ⟨g0, hg0, hpg0⟩ := hpm pp.1 pp.2 (by rw [hppe]) p hppts
          simp only [separate_geometry_types, List.mem_filter] at hg0
          exact ⟨g0, hg0.1, Or.inl (by simpa using hg0.2), hpg0⟩
        · obtain ⟨g0, hg0, hpg0⟩ := hlm lp.1 lp.2 (by rw [hlpe]) p hlpts
          simp only [separate_geometry_types, List.mem_filter] at hg0
          exact ⟨g0, hg0.1, Or.inr (by simpa using hg0.2), hpg0⟩

lemma pipeMixed_ok {env : GeoEnv} {gs : List Geom} {crs : ℕ} {d : ℚ}
    {out : GeoFrame} {meta : PipeMeta} {og : Option GeoFrame}
    (h : pipeMixed env gs crs d = Except.ok (out, meta, og)) :
    out.feats.length = 1 ∧ out.crs = 4326 ∧ (∀ g ∈ out.feats, g.valid = true) ∧
    og.isSome = meta.buffer_applied ∧ meta.geometry_type = "mixed" ∧
    (∀ dg, og = some dg → ∀ g ∈ dg.feats, ∀ p ∈ g.pts,
      ∃ g0 ∈ mixedSource env crs gs,
        (normKind g0.shType = "point" ∨ normKind g0.shType = "line") ∧
        p ∈ g0.pts) := by
  unfold pipeMixed at h
  split at h
  · exact Except.noConfusion h
  · next r hmix =>
    split at h
    · exact Except.noConfusion h
    · next final hrep =>
      obtain ⟨hsome, hmem⟩ := process_mixed_ok hmix
      injection h with h1
      simp only [Prod.mk.injEq] at h1
      obtain ⟨hA, hB, hC⟩ := h1
      subst hA
      subst hB
      subst hC
      refine ⟨rfl, rfl, ?_, hsome, rfl, hmem⟩
      intro g hg
      rcases List.mem_singleton.mp hg with hgf
      rw [hgf]
      exact (repair_invalid_geometry_ok hrep).1

/-- Claim C6: whenever `process_input_geometry` returns without raising, the
normalized area is a single-row frame whose CRS is EPSG:4326 and whose
geometry is valid, on every path (point, line, polygon or mixed input): a
final repair pass runs before the output frame is constructed. -/
theorem C6_normalized_area_valid (env : GeoEnv) (gdf : InputGdf) (d : ℚ)
    (s : Bool) (out : GeoFrame) (meta : PipeMeta) (og : Option GeoFrame)
    (h : process_input_geometry env gdf d s = Except.ok (out, meta, og)) :
    out.feats.length = 1 ∧ out.crs = 4326 ∧
    ∀ g ∈ out.feats, g.valid = true := by
  unfold process_input_geometry at h
  split at h
  · exact Except.noConfusion h
  · split at h
    · have w := pipeMixed_ok h
      exact ⟨w.1, w.2.1, w.2.2.1⟩
    · split at h
      · exact Except.noConfusion h
      · unfold pipeSingleAfterDissolve at h
        split at h <;> split at h <;>
          first
          | (have w := pipeSingleBuffered_ok h
             exact ⟨w.1, w.2.1, w.2.2.1⟩)
          | (have w := pipeSinglePolygon_ok h
             exact ⟨w.1, w.2.1, w.2.2.1⟩)

/-- Claim C7: `process_input_geometry` returns a display frame exactly when
`buffer_applied` is true, and for mixed-type inputs every point of the
preserved display geometry comes from a pre-buffer point-kind or line-kind
source row — never from an input polygon. -/
theorem C7_original_display_geometry (env : GeoEnv) (gdf : InputGdf) (d : ℚ)
    (s : Bool) (out : GeoFrame) (meta : PipeMeta) (og : Option GeoFrame)
    (h : process_input_geometry env gdf d s = Except.ok (out, meta, og)) :
    og.isSome = meta.buffer_applied ∧
    (meta.geometry_type = "mixed" →
      ∀ dg, og = some dg → ∀ g ∈ dg.feats, ∀ p ∈ g.pts,
        ∃ g0 ∈ mixedSource env (gdf.crs.getD 0) (gdf.feats.filterMap id),
          (normKind g0.shType = "point" ∨ normKind g0.shType = "line") ∧
          p ∈ g0.pts) := by
  unfold process_input_geometry at h
  split at h
  · exact Except.noConfusion h
  · split at h
    · have w := pipeMixed_ok h
      exact ⟨w.2.2.2.1, fun _ => w.2.2.2.2.2⟩
    · next hnm =>
      split at h
      · exact Except.noConfusion h
      · unfold pipeSingleAfterDissolve at h
        split at h <;> split at h <;>
          first
          | (have w := pipeSingleBuffered_ok h
             refine ⟨?_, fun hmixeq => absurd (w.2.2.2.2.2.symm.trans hmixeq) hnm⟩
             rw [w.2.2.2.1, w.2.2.2.2.1])
          | (have w := pipeSinglePolygon_ok h
             refine ⟨?_, fun hmixeq => absurd (w.2.2.2.2.2.symm.trans hmixeq) hnm⟩
             rw [w.2.2.2.1, w.2.2.2.2.1]
             rfl)

/-! ### Concrete instances

Small closed geometries, a network environment and an input frame on which
the theorems above are instantiated. -/

/-- A valid triangle used as the query polygon and clip boundary. -/
def samplePoly : Geom :=
  { shType := ShType.polygon, pts := [(0, 0), (1, 0), (0, 1)], valid := true
    hardness := 0 }

/-- A valid point feature. -/
def samplePoint : Geom :=
  { shType := ShType.point, pts := [(5, 5)], valid := true, hardness := 0 }

/-- A valid line crossing the triangle. -/
def sampleLine : Geom :=
  { shType := ShType.linestring, pts := [(0, 0), (2, 2)], valid := true
    hardness := 0 }

/-- A successful one-feature server response without truncation. -/
def sampleResp : QueryResponse :=
  { error := none
    features := [{ fid := 0, geom := some samplePoly }]
    exceededTransferLimit := false }

/-- A network environment whose polygon request times out and whose
envelope request succeeds. -/
def sampleEnv : Env :=
  { polygonResp := ReqOutcome.timeout
    envelopeResp := ReqOutcome.success sampleResp
    metaResp := ReqOutcome.timeout
    pages := fun _ => ReqOutcome.timeout
    pageElapsed := fun _ => 0 }

/-- A normalizer environment: buffering returns a valid polygon over the
same sample points, reprojection and simplification are identities. -/
def sampleGeoEnv : GeoEnv :=
  { bufResult := fun g _ => Except.ok
      { shType := ShType.polygon, pts := g.pts, valid := true, hardness := 0 }
    toCrs4326 := fun _ g => g
    simplifyFn := fun g => g
    areaSqMi := fun _ => 0 }

/-- A one-point input frame declared in EPSG:4326. -/
def sampleGdf : InputGdf :=
  { crs := some 4326, feats := [some samplePoint] }

/-- A mixed polygon-and-point input frame declared in EPSG:4326. -/
def sampleMixedGdf : InputGdf :=
  { crs := some 4326, feats := [some samplePoly, some samplePoint] }

/-- The normalized frame `process_input_geometry` produces on the one-point
input. -/
def sampleNormalized : GeoFrame :=
  { crs := 4326
    feats := [{ shType := ShType.polygon, pts := [(5, 5)], valid := true
                hardness := 0 }] }

/-- The metadata `process_input_geometry` produces on the one-point
input. -/
def samplePipeMeta : PipeMeta :=
  { feature_count := 1, geometry_type := "point", buffer_applied := true
    buffer_distance_feet := some 1, buffer_area := some 0
    mixed_geometry_processing := false, final_crs := 4326
    final_geometry_type := ShType.polygon, is_valid := true }

/-- The display frame `process_input_geometry` produces on the one-point
input. -/
def sampleDisplay : Option GeoFrame :=
  some { crs := 4326, feats := [samplePoint] }

/-- The normalized frame produced on the mixed polygon-and-point input. -/
def sampleMixedOut : GeoFrame :=
  { crs := 4326
    feats := [{ shType := ShType.multipolygon
                pts := [(0, 0), (1, 0), (0, 1), (5, 5)], valid := true
                hardness := 0 }] }

/-- The metadata produced on the mixed polygon-and-point input. -/
def sampleMixedMeta : PipeMeta :=
  { feature_count := 2, geometry_type := "mixed", buffer_applied := true
    buffer_distance_feet := some 1000, buffer_area := some 0
    mixed_geometry_processing := true, final_crs := 4326
    final_geometry_type := ShType.multipolygon, is_valid := true }

/-- The display frame produced on the mixed polygon-and-point input: the
pre-buffer point union only. -/
def sampleMixedDisplay : Option GeoFrame :=
  some { crs := 4326
         feats := [{ shType := ShType.multipoint, pts := [(5, 5)]
                     valid := true, hardness := 0 }] }

/-- Instantiation of the feature-count bound on the sample environment. -/
theorem C2_feature_count_le_server_count_witness :
    (query_arcgis_layer sampleEnv "roads" samplePoly none none false none
      false 0 0).2.feature_count ≤ 1 :=
  C2_feature_count_le_server_count sampleEnv "roads" samplePoly none none
    false none false 0 0 1 rfl

/-- The one-row frame the clip invariant is instantiated on. -/
def sampleRow : Feature :=
  { fid := 0, geom := sampleLine }

/-- Instantiation of the clip invariant on a one-line frame clipped by the
sample triangle. -/
theorem C5_clip_invariant_witness :
    (∀ f' ∈ (clip_geodataframe [sampleRow] samplePoly
        ("line")).1,
      ∃ f ∈ [sampleRow], f.fid = f'.fid ∧
        ((∀ p ∈ f'.geom.pts, p ∈ f.geom.pts ∧ p ∈ samplePoly.pts) ∨
         (f'.geom.pts = f.geom.pts ∧
          1 ≤ (clip_geodataframe [sampleRow] samplePoly
            ("line")).2.clip_failures))) ∧
    ((clip_geodataframe [sampleRow] samplePoly
        ("line")).1.map (fun f => count_vertices f.geom)).sum ≤
      ([sampleRow].map
        (fun f => count_vertices f.geom)).sum :=
  C5_clip_invariant [sampleRow] samplePoly "line"
    (clip_geodataframe [sampleRow] samplePoly "line").1
    (clip_geodataframe [sampleRow] samplePoly "line").2
    (by decide) (by decide) rfl

/-- Instantiation of the normalization invariant on the one-point input. -/
theorem C6_normalized_area_valid_witness :
    sampleNormalized.feats.length = 1 ∧ sampleNormalized.crs = 4326 ∧
    ∀ g ∈ sampleNormalized.feats, g.valid = true :=
  C6_normalized_area_valid sampleGeoEnv sampleGdf 1 false sampleNormalized
    samplePipeMeta sampleDisplay rfl

/-- Instantiation of the display-geometry invariant on the mixed
polygon-and-point input with a 1000 ft buffer. -/
theorem C7_original_display_geometry_witness :
    sampleMixedDisplay.isSome = sampleMixedMeta.buffer_applied ∧
    (sampleMixedMeta.geometry_type = "mixed" →
      ∀ dg, sampleMixedDisplay = some dg → ∀ g ∈ dg.feats, ∀ p ∈ g.pts,
        ∃ g0 ∈ mixedSource sampleGeoEnv (sampleMixedGdf.crs.getD 0)
            (sampleMixedGdf.feats.filterMap id),
          (normKind g0.shType = "point" ∨ normKind g0.shType = "line") ∧
          p ∈ g0.pts) :=
  C7_original_display_geometry sampleGeoEnv sampleMixedGdf 1000 false
    sampleMixedOut sampleMixedMeta sampleMixedDisplay rfl

/-- Instantiation of the envelope-fallback equivalence on the sample
environment, whose polygon request times out. -/
theorem C8_envelope_fallback_equiv_witness :
    (query_arcgis_layer sampleEnv "roads" samplePoly none none true
        (some ("esri")) false 0 0).1 =
      (query_arcgis_layer sampleEnv "roads" samplePoly none none false none
        false 0 0).1 ∧
    (query_arcgis_layer sampleEnv "roads" samplePoly none none true
        (some ("esri")) false 0 0).2.query_method = "envelope_fallback" ∧
    ((query_arcgis_layer sampleEnv "roads" samplePoly none none true
        (some ("esri")) false 0 0).2.query_fallback_reason).isSome = true ∧
    (query_arcgis_layer sampleEnv "roads" samplePoly none none true
        (some ("esri")) false 0 0).2.feature_count =
      (query_arcgis_layer sampleEnv "roads" samplePoly none none false none
        false 0 0).2.feature_count :=
  C8_envelope_fallback_equiv sampleEnv "roads" samplePoly none none none
    false 0 0 "esri" (Or.inr (Or.inl rfl)) sampleResp rfl
